import Mathlib

/-!
Verification development for the color-space conversion engine of the
repository (COLOR / VISION modules): sRGB, Linear RGB, CIEXYZ, CIE Yxy,
CIELAB, LMS, YIQ, Munsell HVC and PCCS hls conversions, the CIEDE2000
color-difference metric, categorical color classification, and the
string-keyed dispatcher.

The JavaScript source is embedded shallowly over the real numbers:
- JS number arithmetic is modelled by exact real arithmetic; the spots
  where IEEE special values (NaN, undefined properties) decide behavior
  are modelled explicitly, either by the equivalent real-number guard
  (0/0 detection in Yxy.toXYZ) or by Option (missing table entries,
  access to an undefined class property, NaN-producing Math.pow).
- The two unbounded while-loops (Newton iterations in Munsell._y2v and
  PCCS._solveEquation) are modelled with an explicit fuel parameter;
  in addition, a NaN-aware step-function model of the _y2v loop is used
  to reason about non-termination of the source loop itself.
- The process-wide isSaturated flags are modelled by returning the flag
  next to the value.
- The JS "| 0" truncation is modelled as truncation toward zero, which
  is faithful for values of magnitude below 2^31 (the only ones that
  occur in the claims considered here).
-/

noncomputable section

open Real

/-- A 3-component color value, as the JS arrays of three numbers. -/
abbrev Vec3 : Type := ℝ × ℝ × ℝ

/-- JS "x | 0": truncation toward zero (faithful below 2^31). -/
def jsTrunc (x : ℝ) : ℝ := if 0 ≤ x then ((⌊x⌋ : ℤ) : ℝ) else -((⌊-x⌋ : ℤ) : ℝ)

/-- JS Math.round: floor of x + 1/2. -/
def jsRound (x : ℝ) : ℝ := ((⌊x + 0.5⌋ : ℤ) : ℝ)

namespace RGB

/-- RGB._checkRange on one cell: clamp above then below, reporting whether a clamp fired. -/
def _checkCell (mn mx x : ℝ) : ℝ × Bool :=
  let p1 : ℝ × Bool := if x > mx then (mx, true) else (x, false)
  let p2 : ℝ × Bool := if p1.1 < mn then (mn, true) else p1
  (p2.1, p1.2 || p2.2)

/-- RGB._checkRange: clamp all three cells to [mn, mx]; true when any clamp fired. -/
def _checkRange (vs : Vec3) (mn mx : ℝ) : Vec3 × Bool :=
  let a := _checkCell mn mx vs.1
  let b := _checkCell mn mx vs.2.1
  let c := _checkCell mn mx vs.2.2
  ((a.1, b.1, c.1), a.2 || b.2 || c.2)

/-- RGB._func: sRGB to Linear RGB gamma function. -/
def _func (x : ℝ) : ℝ :=
  if x < 0.03928 then x / 12.92 else ((x + 0.055) / 1.055) ^ (2.4 : ℝ)

/-- RGB._invFunc: Linear RGB to sRGB inverse gamma function. -/
def _invFunc (x : ℝ) : ℝ :=
  if x > 0.00304 then x ^ ((1 : ℝ) / 2.4) * 1.055 - 0.055 else x * 12.92

/-- RGB.toLRGB: apply the gamma function per channel to v/255. -/
def toLRGB (rgb : Vec3) : Vec3 :=
  (_func (rgb.1 / 255), _func (rgb.2.1 / 255), _func (rgb.2.2 / 255))

/-- RGB.fromLRGB: inverse gamma, scale by 255, truncate, clamp to [0,255];
the Bool is the isSaturated flag set by this call. -/
def fromLRGB (lrgb : Vec3) : Vec3 × Bool :=
  _checkRange
    (jsTrunc (_invFunc lrgb.1 * 255),
     jsTrunc (_invFunc lrgb.2.1 * 255),
     jsTrunc (_invFunc lrgb.2.2 * 255)) 0 255

end RGB

namespace Lab

def _C1 : ℝ := 6 ^ 3 / 29 ^ 3
def _C2 : ℝ := 29 ^ 2 / 6 ^ 2 / 3
def _C3 : ℝ := 6 / 29
def _C4 : ℝ := 6 ^ 2 / 29 ^ 2 * 3

/-- Lab._func: cube root above the threshold, linear below. -/
def _func (x : ℝ) : ℝ :=
  if x > _C1 then x ^ ((1 : ℝ) / 3) else _C2 * x + 16 / 116

/-- Lab._invFunc: cube above the threshold, linear below. -/
def _invFunc (x : ℝ) : ℝ :=
  if x > _C3 then x ^ (3 : ℕ) else (x - 16 / 116) * _C4

def D65_xyz : Vec3 := (0.31273, 0.32902, 0.35825)

def D65_XYZ : Vec3 := (D65_xyz.1 / D65_xyz.2.1, 1, D65_xyz.2.2 / D65_xyz.2.1)

def XYZ_TRISTIMULUS_VALUES : Vec3 := D65_XYZ

/-- Lab.fromXYZ. -/
def fromXYZ (xyz : Vec3) : Vec3 :=
  let fy := _func (xyz.2.1 / XYZ_TRISTIMULUS_VALUES.2.1)
  (116 * fy - 16,
   500 * (_func (xyz.1 / XYZ_TRISTIMULUS_VALUES.1) - fy),
   200 * (fy - _func (xyz.2.2 / XYZ_TRISTIMULUS_VALUES.2.2)))

/-- Lab.toXYZ. -/
def toXYZ (lab : Vec3) : Vec3 :=
  let fy := (lab.1 + 16) / 116
  (_invFunc (fy + lab.2.1 / 500) * XYZ_TRISTIMULUS_VALUES.1,
   _invFunc fy * XYZ_TRISTIMULUS_VALUES.2.1,
   _invFunc (fy - lab.2.2 / 200) * XYZ_TRISTIMULUS_VALUES.2.2)

end Lab

namespace LMS

def SMITH_POKORNY : Vec3 × Vec3 × Vec3 :=
  ((0.15514, 0.54312, -0.03286),
   (-0.15514, 0.45684, 0.03286),
   (0.0, 0.0, 0.01608))

def SMITH_POKORNY_INV : Vec3 × Vec3 × Vec3 :=
  ((2.944812906606763, -3.500977991936487, 13.17218214714747),
   (1.000040001600064, 1.000040001600064, 0.0),
   (0.0, 0.0, 62.18905472636816))

def matrix : Vec3 × Vec3 × Vec3 := SMITH_POKORNY

def matrixInverse : Vec3 × Vec3 × Vec3 := SMITH_POKORNY_INV

/-- LMS.fromXYZ (Smith-Pokorny basis, the default). -/
def fromXYZ (xyz : Vec3) : Vec3 :=
  (matrix.1.1 * xyz.1 + matrix.1.2.1 * xyz.2.1 + matrix.1.2.2 * xyz.2.2,
   matrix.2.1.1 * xyz.1 + matrix.2.1.2.1 * xyz.2.1 + matrix.2.1.2.2 * xyz.2.2,
   matrix.2.2.1 * xyz.1 + matrix.2.2.2.1 * xyz.2.1 + matrix.2.2.2.2 * xyz.2.2)

/-- LMS.toXYZ. -/
def toXYZ (lms : Vec3) : Vec3 :=
  (matrixInverse.1.1 * lms.1 + matrixInverse.1.2.1 * lms.2.1 + matrixInverse.1.2.2 * lms.2.2,
   matrixInverse.2.1.1 * lms.1 + matrixInverse.2.1.2.1 * lms.2.1 + matrixInverse.2.1.2.2 * lms.2.2,
   matrixInverse.2.2.1 * lms.1 + matrixInverse.2.2.2.1 * lms.2.1 + matrixInverse.2.2.2.2 * lms.2.2)

end LMS

namespace LRGB

/-- LRGB.toXYZ: 3x3 matrix. -/
def toXYZ (lrgb : Vec3) : Vec3 :=
  (0.4124564 * lrgb.1 + 0.3575761 * lrgb.2.1 + 0.1804375 * lrgb.2.2,
   0.2126729 * lrgb.1 + 0.7151522 * lrgb.2.1 + 0.0721750 * lrgb.2.2,
   0.0193339 * lrgb.1 + 0.1191920 * lrgb.2.1 + 0.9503041 * lrgb.2.2)

/-- LRGB.fromXYZ: inverse 3x3 matrix. -/
def fromXYZ (xyz : Vec3) : Vec3 :=
  (3.2404542 * xyz.1 + -1.5371385 * xyz.2.1 + -0.4985314 * xyz.2.2,
   -0.9692660 * xyz.1 + 1.8760108 * xyz.2.1 + 0.0415560 * xyz.2.2,
   0.0556434 * xyz.1 + -0.2040259 * xyz.2.1 + 1.0572252 * xyz.2.2)

/-- LRGB.fromRGB = RGB.toLRGB. -/
def fromRGB (rgb : Vec3) : Vec3 := RGB.toLRGB rgb

end LRGB

namespace YIQ

/-- YIQ.fromLRGB. -/
def fromLRGB (lrgb : Vec3) : Vec3 :=
  (0.2990 * lrgb.1 + 0.5870 * lrgb.2.1 + 0.1140 * lrgb.2.2,
   0.595716 * lrgb.1 + -0.274453 * lrgb.2.1 + -0.321263 * lrgb.2.2,
   0.211456 * lrgb.1 + -0.522591 * lrgb.2.1 + 0.311135 * lrgb.2.2)

/-- YIQ.toLRGB. -/
def toLRGB (yiq : Vec3) : Vec3 :=
  (yiq.1 + 0.9563 * yiq.2.1 + 0.6210 * yiq.2.2,
   yiq.1 + -0.2721 * yiq.2.1 + -0.6474 * yiq.2.2,
   yiq.1 + -1.1070 * yiq.2.1 + 1.7046 * yiq.2.2)

end YIQ

namespace Yxy

/-- Yxy.fromXYZ: projective chromaticity; at X+Y+Z = 0 the D65 white point. -/
def fromXYZ (xyz : Vec3) : Vec3 :=
  let sum := xyz.1 + xyz.2.1 + xyz.2.2
  if sum = 0 then (xyz.2.1, 0.31273, 0.32902)
  else (xyz.2.1, xyz.1 / sum, xyz.2.1 / sum)

/-- Yxy.toXYZ. The source checks Number.isNaN on d0 = sx*y/sy; for finite
real inputs d0 is NaN exactly when sy = 0 and sx*y = 0, which is the guard
used here. The Bool is the isSaturated flag set by the call. -/
def toXYZ (yxy : Vec3) : Vec3 × Bool :=
  let y := yxy.1
  let sx := yxy.2.1
  let sy := yxy.2.2
  if sy = 0 ∧ sx * y = 0 then ((0, 0, 0), false)
  else
    let d0 := sx * y / sy
    let d1 := y
    let d2 := (1 - sx - sy) * y / sy
    ((d0, d1, d2),
     decide (Lab.D65_XYZ.1 < d0 ∨ Lab.D65_XYZ.2.1 < d1 ∨ Lab.D65_XYZ.2.2 < d2))

end Yxy

namespace XYZ

/-- XYZ.fromIlluminantC: Von Kries matrix, illuminant C to D65. -/
def fromIlluminantC (xyz : Vec3) : Vec3 :=
  (0.9972812 * xyz.1 + -0.0093756 * xyz.2.1 + -0.0154171 * xyz.2.2,
   -0.0010298 * xyz.1 + 1.0007636 * xyz.2.1 + 0.0002084 * xyz.2.2,
   0.9209267 * xyz.2.2)

/-- XYZ.toIlluminantC: Von Kries matrix, D65 to illuminant C. -/
def toIlluminantC (xyz : Vec3) : Vec3 :=
  (1.0027359 * xyz.1 + 0.0093941 * xyz.2.1 + 0.0167846 * xyz.2.2,
   0.0010319 * xyz.1 + 0.9992466 * xyz.2.1 + -0.0002089 * xyz.2.2,
   1.0858628 * xyz.2.2)

end XYZ

/-! ### Helper lemmas for rational powers

The gamma functions use Math.pow with fractional exponents; these lemmas
reduce real-power inequalities to rational-arithmetic inequalities. -/

lemma le_rpow_of_pow_le {a b : ℝ} {p q : ℕ} (hq : 0 < q) (ha : 0 ≤ a) (hb : 0 ≤ b)
    (h : a ^ q ≤ b ^ p) : a ≤ b ^ ((p : ℝ) / q) := by
  have hq0 : (0:ℝ) < (q : ℝ) := by exact_mod_cast hq
  have h1 : a = (a ^ (q:ℕ) : ℝ) ^ ((1:ℝ) / q) := by
    rw [← Real.rpow_natCast a q, ← Real.rpow_mul ha]
    rw [mul_one_div, div_self (ne_of_gt hq0), Real.rpow_one]
  have h2 : b ^ ((p : ℝ) / q) = (b ^ (p:ℕ) : ℝ) ^ ((1:ℝ) / q) := by
    rw [← Real.rpow_natCast b p, ← Real.rpow_mul hb, mul_one_div]
  rw [h1, h2]
  exact Real.rpow_le_rpow (by positivity) h (by positivity)

lemma rpow_le_of_pow_le {a b : ℝ} {p q : ℕ} (hq : 0 < q) (ha : 0 ≤ a) (hb : 0 ≤ b)
    (h : a ^ p ≤ b ^ q) : a ^ ((p : ℝ) / q) ≤ b := by
  have hq0 : (0:ℝ) < (q : ℝ) := by exact_mod_cast hq
  have h1 : b = (b ^ (q:ℕ) : ℝ) ^ ((1:ℝ) / q) := by
    rw [← Real.rpow_natCast b q, ← Real.rpow_mul hb]
    rw [mul_one_div, div_self (ne_of_gt hq0), Real.rpow_one]
  have h2 : a ^ ((p : ℝ) / q) = (a ^ (p:ℕ) : ℝ) ^ ((1:ℝ) / q) := by
    rw [← Real.rpow_natCast a p, ← Real.rpow_mul ha, mul_one_div]
  rw [h1, h2]
  exact Real.rpow_le_rpow (by positivity) h (by positivity)

/-! ### Claims about the sRGB gamma pair (C5, C6) -/

lemma func_at_threshold : RGB._func 0.03928 = ((0.03928 + 0.055) / 1.055 : ℝ) ^ (2.4 : ℝ) := by
  rw [RGB._func, if_neg]
  norm_num

lemma func_threshold_le : RGB._func 0.03928 ≤ 0.00304 := by
  rw [func_at_threshold]
  have h24 : (2.4 : ℝ) = (12 : ℕ) / (5 : ℕ) := by norm_num
  rw [h24]
  exact rpow_le_of_pow_le (by norm_num) (by norm_num) (by norm_num) (by norm_num)

/-- C5 (counterexample): the inverse gamma function is not an exact inverse of
the forward gamma function on all of [0,1]: at v = 0.03928 the forward
function takes the power branch but its value falls at or below the inverse
threshold 0.00304, so the inverse takes the linear branch and returns a
different value. -/
theorem claim_C5_counterexample : RGB._invFunc (RGB._func 0.03928) ≠ 0.03928 := by
  have hy := func_threshold_le
  have hinv : RGB._invFunc (RGB._func 0.03928) = RGB._func 0.03928 * 12.92 := by
    rw [RGB._invFunc, if_neg (not_lt.mpr hy)]
  rw [hinv]
  have : RGB._func 0.03928 * 12.92 ≤ 0.00304 * 12.92 := by nlinarith
  intro hcontra
  nlinarith

/-- C5 (amended): RGB.toLRGB applies the piecewise gamma function per channel
to v/255, and the inverse-gamma round trip identity invFunc (func v) = v
holds for every v that avoids the threshold mismatch sliver: either
v is at most 12.92 * 0.00304 (both take the linear branch), or v is at least
0.03928 with func v above 0.00304 (both take the power branch). It fails in
the remaining sliver around 0.039, as the counterexample at 0.03928 shows. -/
theorem claim_C5 :
    (∀ r g b : ℝ, RGB.toLRGB (r, g, b) = (RGB._func (r / 255), RGB._func (g / 255), RGB._func (b / 255))) ∧
    ∀ v : ℝ, 0 ≤ v →
      (v ≤ 12.92 * 0.00304 ∨ (0.03928 ≤ v ∧ 0.00304 < ((v + 0.055) / 1.055) ^ (2.4 : ℝ))) →
      RGB._invFunc (RGB._func v) = v := by
  constructor
  · intro r g b
    rfl
  · intro v hv0 hcase
    rcases hcase with hlin | ⟨hge, hpow⟩
    · have hlt : v < 0.03928 := by nlinarith
      have hfunc : RGB._func v = v / 12.92 := by rw [RGB._func, if_pos hlt]
      have hle : ¬ (0.00304 < v / 12.92) := by
        rw [not_lt]
        rw [div_le_iff (by norm_num : (0:ℝ) < 12.92)]
        linarith
      rw [hfunc, RGB._invFunc, if_neg hle]
      field_simp
    · have hfunc : RGB._func v = ((v + 0.055) / 1.055) ^ (2.4 : ℝ) := by
        rw [RGB._func, if_neg (not_lt.mpr hge)]
      have hbase : (0:ℝ) ≤ (v + 0.055) / 1.055 := by positivity
      rw [hfunc, RGB._invFunc, if_pos hpow]
      rw [← Real.rpow_mul hbase]
      have h1 : (2.4 : ℝ) * (1 / 2.4) = 1 := by norm_num
      rw [h1, Real.rpow_one]
      field_simp

/-- witness for claim_C5 at v = 0.5. -/
theorem claim_C5_witness : (0:ℝ) ≤ 0.5 ∧ RGB._invFunc (RGB._func 0.5) = 0.5 := by
  refine ⟨by norm_num, claim_C5.2 0.5 (by norm_num) (Or.inr ⟨by norm_num, ?_⟩)⟩
  have hx : (0:ℝ) < (0.5 + 0.055) / 1.055 := by norm_num
  have hx1 : ((0.5 + 0.055) / 1.055 : ℝ) ≤ 1 := by norm_num
  have h3 : ((0.5 + 0.055) / 1.055 : ℝ) ^ (3:ℝ) ≤ ((0.5 + 0.055) / 1.055 : ℝ) ^ (2.4:ℝ) :=
    Real.rpow_le_rpow_of_exponent_ge hx hx1 (by norm_num)
  have h3' : ((0.5 + 0.055) / 1.055 : ℝ) ^ (3:ℝ) = ((0.5 + 0.055) / 1.055 : ℝ) ^ (3:ℕ) := by
    rw [← Real.rpow_natCast]
    norm_num
  have hnum : (0.00304 : ℝ) < ((0.5 + 0.055) / 1.055 : ℝ) ^ (3:ℕ) := by norm_num
  calc (0.00304 : ℝ) < ((0.5 + 0.055) / 1.055 : ℝ) ^ (3:ℕ) := hnum
    _ = ((0.5 + 0.055) / 1.055 : ℝ) ^ (3:ℝ) := h3'.symm
    _ ≤ ((0.5 + 0.055) / 1.055 : ℝ) ^ (2.4:ℝ) := h3

lemma twelfth_root_two_ge : (1.2 : ℝ) ≤ (2 : ℝ) ^ ((1:ℝ) / 2.4) := by
  have h : (1.2 : ℝ) ≤ (2 : ℝ) ^ ((5 : ℕ) / (12 : ℕ) : ℝ) :=
    le_rpow_of_pow_le (by norm_num) (by norm_num) (by norm_num) (by norm_num)
  have he : ((5 : ℕ) / (12 : ℕ) : ℝ) = (1:ℝ) / 2.4 := by norm_num
  rwa [he] at h

lemma half_pow_lower : (0.7 : ℝ) ≤ (0.5 : ℝ) ^ ((1:ℝ) / 2.4) := by
  have h : (0.7 : ℝ) ≤ (0.5 : ℝ) ^ ((5 : ℕ) / (12 : ℕ) : ℝ) :=
    le_rpow_of_pow_le (by norm_num) (by norm_num) (by norm_num) (by norm_num)
  have he : ((5 : ℕ) / (12 : ℕ) : ℝ) = (1:ℝ) / 2.4 := by norm_num
  rwa [he] at h

lemma half_pow_upper : (0.5 : ℝ) ^ ((1:ℝ) / 2.4) ≤ 0.8 := by
  have h : (0.5 : ℝ) ^ ((5 : ℕ) / (12 : ℕ) : ℝ) ≤ 0.8 :=
    rpow_le_of_pow_le (by norm_num) (by norm_num) (by norm_num) (by norm_num)
  have he : ((5 : ℕ) / (12 : ℕ) : ℝ) = (1:ℝ) / 2.4 := by norm_num
  rwa [he] at h

lemma invFunc_two_eq : RGB._invFunc 2 = (2:ℝ) ^ ((1:ℝ) / 2.4) * 1.055 - 0.055 := by
  rw [RGB._invFunc, if_pos (by norm_num : (2:ℝ) > 0.00304)]

lemma invFunc_half_eq : RGB._invFunc 0.5 = (0.5:ℝ) ^ ((1:ℝ) / 2.4) * 1.055 - 0.055 := by
  rw [RGB._invFunc, if_pos (by norm_num : (0.5:ℝ) > 0.00304)]

lemma trunc_two_big : jsTrunc (RGB._invFunc 2 * 255) > 255 := by
  have hge : (256 : ℝ) ≤ RGB._invFunc 2 * 255 := by
    have := twelfth_root_two_ge
    rw [invFunc_two_eq]
    nlinarith
  have h0 : (0 : ℝ) ≤ RGB._invFunc 2 * 255 := by linarith
  rw [jsTrunc, if_pos h0]
  have : (256 : ℤ) ≤ ⌊RGB._invFunc 2 * 255⌋ := by
    apply Int.le_floor.mpr
    exact_mod_cast hge
  have : ((256 : ℤ) : ℝ) ≤ ((⌊RGB._invFunc 2 * 255⌋ : ℤ) : ℝ) := by exact_mod_cast this
  push_cast at this ⊢
  linarith

lemma trunc_half_bounds :
    0 ≤ jsTrunc (RGB._invFunc 0.5 * 255) ∧ jsTrunc (RGB._invFunc 0.5 * 255) ≤ 255 := by
  have hlo : (174 : ℝ) ≤ RGB._invFunc 0.5 * 255 := by
    have := half_pow_lower
    rw [invFunc_half_eq]
    nlinarith
  have hhi : RGB._invFunc 0.5 * 255 ≤ 202 := by
    have := half_pow_upper
    rw [invFunc_half_eq]
    nlinarith
  have h0 : (0 : ℝ) ≤ RGB._invFunc 0.5 * 255 := by linarith
  rw [jsTrunc, if_pos h0]
  constructor
  · have : (0 : ℤ) ≤ ⌊RGB._invFunc 0.5 * 255⌋ := Int.floor_nonneg.mpr h0
    exact_mod_cast this
  · have hfl : ((⌊RGB._invFunc 0.5 * 255⌋ : ℤ) : ℝ) ≤ RGB._invFunc 0.5 * 255 := Int.floor_le _
    linarith

/-- C6: RGB.fromLRGB applied to the out-of-gamut linear color (2,2,2) returns
the clamped (255,255,255) with the saturation indicator set, while on the
in-gamut (0.5,0.5,0.5) it returns an in-range triple with the indicator
clear: the indicator is set exactly when clamping occurred in the call. -/
theorem claim_C6 :
    RGB.fromLRGB (2, 2, 2) = ((255, 255, 255), true) ∧
    (RGB.fromLRGB (0.5, 0.5, 0.5)).2 = false ∧
    (0 ≤ (RGB.fromLRGB (0.5, 0.5, 0.5)).1.1 ∧ (RGB.fromLRGB (0.5, 0.5, 0.5)).1.1 ≤ 255 ∧
     0 ≤ (RGB.fromLRGB (0.5, 0.5, 0.5)).1.2.1 ∧ (RGB.fromLRGB (0.5, 0.5, 0.5)).1.2.1 ≤ 255 ∧
     0 ≤ (RGB.fromLRGB (0.5, 0.5, 0.5)).1.2.2 ∧ (RGB.fromLRGB (0.5, 0.5, 0.5)).1.2.2 ≤ 255) := by
  have hcell2 : RGB._checkCell 0 255 (jsTrunc (RGB._invFunc 2 * 255)) = (255, true) := by
    rw [RGB._checkCell, if_pos trunc_two_big]
    norm_num
  have hbounds := trunc_half_bounds
  have h1 : ¬ (jsTrunc (RGB._invFunc 0.5 * 255) > 255) := not_lt.mpr hbounds.2
  have h2 : ¬ (jsTrunc (RGB._invFunc 0.5 * 255) < 0) := not_lt.mpr hbounds.1
  have hcellh : RGB._checkCell 0 255 (jsTrunc (RGB._invFunc 0.5 * 255)) =
      (jsTrunc (RGB._invFunc 0.5 * 255), false) := by
    simp [RGB._checkCell, h1, h2]
  have hfrom2 : RGB.fromLRGB (2, 2, 2) = ((255, 255, 255), true) := by
    show RGB._checkRange
      (jsTrunc (RGB._invFunc 2 * 255), jsTrunc (RGB._invFunc 2 * 255),
       jsTrunc (RGB._invFunc 2 * 255)) 0 255 = _
    rw [RGB._checkRange, hcell2]
    rfl
  have hfromh : RGB.fromLRGB (0.5, 0.5, 0.5) =
      ((jsTrunc (RGB._invFunc 0.5 * 255), jsTrunc (RGB._invFunc 0.5 * 255),
        jsTrunc (RGB._invFunc 0.5 * 255)), false) := by
    show RGB._checkRange
      (jsTrunc (RGB._invFunc 0.5 * 255), jsTrunc (RGB._invFunc 0.5 * 255),
       jsTrunc (RGB._invFunc 0.5 * 255)) 0 255 = _
    rw [RGB._checkRange, hcellh]
    rfl
  refine ⟨hfrom2, ?_, ?_⟩
  · rw [hfromh]
  · rw [hfromh]
    exact ⟨hbounds.1, hbounds.2, hbounds.1, hbounds.2, hbounds.1, hbounds.2⟩

/-! ### Claims about Yxy (C3, C10) -/

/-- C3 (counterexample): the XYZ to Yxy to XYZ round trip is not exact on all
of the region X+Y+Z different from 0: at (1,0,0) the sum is 1 but Y = 0, so
the chromaticity denominator y/(X+Y+Z) is 0, the recomputed X component is
0/0, and Yxy.toXYZ takes its NaN-guard path returning (0,0,0). -/
theorem claim_C3_counterexample : (Yxy.toXYZ (Yxy.fromXYZ (1, 0, 0))).1 ≠ ((1:ℝ), 0, 0) := by
  have h1 : Yxy.fromXYZ (1, 0, 0) = ((0:ℝ), 1, 0) := by
    rw [Yxy.fromXYZ]
    norm_num
  rw [h1]
  have h2 : Yxy.toXYZ ((0:ℝ), 1, 0) = ((0, 0, 0), false) := by
    rw [Yxy.toXYZ]
    norm_num
  rw [h2]
  norm_num [Prod.ext_iff]

/-- C3 (amended): the XYZ to Yxy to XYZ round trip is exact whenever both
X+Y+Z and Y are nonzero (when Y = 0 the degenerate 0/0 guard fires instead),
and at X+Y+Z = 0 the forward map returns the D65 white-point chromaticity by
convention. -/
theorem claim_C3 : ∀ x y z : ℝ,
    (x + y + z ≠ 0 → y ≠ 0 → (Yxy.toXYZ (Yxy.fromXYZ (x, y, z))).1 = (x, y, z)) ∧
    (x + y + z = 0 → Yxy.fromXYZ (x, y, z) = (y, 0.31273, 0.32902)) := by
  intro x y z
  constructor
  · intro hs hy
    have h1 : Yxy.fromXYZ (x, y, z) = (y, x / (x + y + z), y / (x + y + z)) := by
      rw [Yxy.fromXYZ]
      simp only [if_neg hs]
    rw [h1, Yxy.toXYZ]
    rw [if_neg]
    · simp only [Prod.mk.injEq, and_true, true_and, eq_self_iff_true]
      refine ⟨?_, ?_⟩
      · field_simp
      · field_simp
        ring
    · rintro ⟨hsy, -⟩
      exact hy ((div_eq_zero_iff.mp hsy).resolve_right hs)
  · intro hs
    rw [Yxy.fromXYZ]
    simp only [if_pos hs]

/-- witness for claim_C3 at (1,1,1) and at the degenerate (1,-2,1). -/
theorem claim_C3_witness :
    ((1:ℝ) + 1 + 1 ≠ 0 ∧ (1:ℝ) ≠ 0 ∧ (Yxy.toXYZ (Yxy.fromXYZ (1, 1, 1))).1 = (1, 1, 1)) ∧
    ((1:ℝ) + (-2) + 1 = 0 ∧ Yxy.fromXYZ (1, -2, 1) = (-2, 0.31273, 0.32902)) :=
  ⟨⟨by norm_num, by norm_num, (claim_C3 1 1 1).1 (by norm_num) (by norm_num)⟩,
   ⟨by norm_num, (claim_C3 1 (-2) 1).2 (by norm_num)⟩⟩

/-- C10: whenever the recomputed X component sx*Y/sy would be NaN (for finite
real inputs: sy = 0 and sx*Y = 0, which covers every input with Y = 0 and
sy = 0), Yxy.toXYZ returns (0,0,0) and clears the isSaturated flag instead of
propagating NaN. -/
theorem claim_C10 : ∀ Y sx sy : ℝ, sy = 0 → sx * Y = 0 →
    Yxy.toXYZ (Y, sx, sy) = ((0, 0, 0), false) := by
  intro Y sx sy h1 h2
  rw [Yxy.toXYZ]
  simp only [if_pos (And.intro h1 h2)]

/-- witness for claim_C10 at (0, 0.5, 0). -/
theorem claim_C10_witness :
    ((0:ℝ) = 0 ∧ (0.5:ℝ) * 0 = 0) ∧ Yxy.toXYZ (0, 0.5, 0) = ((0, 0, 0), false) :=
  ⟨by norm_num, claim_C10 0 0.5 0 rfl (by norm_num)⟩

/-! ### The Munsell engine -/

namespace Munsell

def MONO_LIMIT_C : ℝ := 0.05

def _TBL_V : List ℝ := [1, 2, 3, 4, 5, 6, 7, 8, 9]

def _MIN_HUE : ℝ := 0

def _MAX_HUE : ℝ := 100

def _HUE_NAMES : List String := ["R", "YR", "Y", "GY", "G", "BG", "B", "PB", "P", "RP"]

def _EP : ℝ := 0.0000000000001

def _ILLUMINANT_C : ℝ × ℝ := (0.3101, 0.3162)

/-- Munsell._eq: tolerance comparison. -/
abbrev _eq (a b : ℝ) : Prop := |a - b| < _EP

/-- Munsell._eq0: tolerance comparison with zero. -/
abbrev _eq0 (a : ℝ) : Prop := |a| < _EP

/-- Munsell._v2y: Y of XYZ (illuminant C) from V (JIS). -/
def _v2y (v : ℝ) : ℝ :=
  if v ≤ 1 then v * 0.0121
  else (0.0467 * (v * v * v) + 0.5602 * (v * v) - 0.1753 * v + 0.8007) / 100

set_option maxHeartbeats 1000000 in
/-- Level 0 of Munsell._TBL_SRC_MIN (delta-encoded source rows). -/
def _TBL_SRC_MIN_0 : List (List ℤ) := [
  [0, 363, 271, -334, -300, -6, 4, -2, 0, -5, 4, -1, 1],
  [1, 377, 282, -337, -307, -5, 1, -6, 1, -4, 3],
  [2, 391, 293, -340, -313, -4, -1, -8, -1, -7, 2],
  [3, 402, 303, -338, -317, -6, -5, -10, -2, -9, 1],
  [4, 413, 315, -333, -323, -15, -7, -5, -6, -12, 0],
  [5, 426, 334, -321, -331, -31, -13, -7, -11],
  [6, 438, 358, -310, -336],
  [7, 443, 378],
  [8, 445, 398],
  [9, 436, 418],
  [10, 423, 427],
  [11, 404, 429],
  [12, 380, 421],
  [13, 354, 409],
  [14, 336, 398, -295, -202],
  [15, 315, 384, -317, -230],
  [16, 301, 372, -330, -254, -20, 31],
  [17, 291, 363, -337, -277, -28, 27, -35, 15],
  [18, 283, 356, -337, -290, -28, 12, -9, -7],
  [19, 276, 348, -336, -299, -22, 5, 1, -11],
  [20, 269, 341, -334, -310, -14, -1, 5, -16],
  [21, 260, 329, -332, -317, 1, -8, 2, -3],
  [22, 250, 314, -325, -326, 9, -4],
  [23, 243, 302, -316, -327, 9, -3],
  [24, 236, 288, -306, -326, 11, 1],
  [25, 232, 278, -299, -324, 14, 5],
  [26, 229, 268, -291, -319, 16, 9],
  [27, 229, 258, -286, -311, 15, 12, 9, 5],
  [28, 231, 249, -284, -301, 14, 11, 8, 7],
  [29, 236, 242, -282, -293, 10, 9, 9, 9],
  [30, 243, 237, -285, -287, 9, 8, 10, 9, 7, 8],
  [31, 255, 231, -287, -280, 9, 9, 10, 12, 6, 9, 3, 4, 2, 4, 0, 0, 1, 5, 0, -1, 1, 2, -1, 0, 1, 1, 0, 0, -1, 0, 1, 1, 0, 1, 0, 0, 0, 0],
  [32, 268, 228, -290, -273, 5, 9, 7, 12, 3, 4, 2, 4, 2, 4, 0, 1, 1, 3, 1, 1, 0, 2, -1, -1, 1, 1, 1, 0, -1, 1],
  [33, 281, 230, -295, -273, 4, 12, 3, 5, 1, 7, 1, 2, 2, 4, 0, 2, 1, 3, 1, 0, -1, 1, 1, 2, -1, -1],
  [34, 294, 233, -303, -273, 3, 10, 1, 5, 1, 5, 1, 3, 1, 2, 0, 4, 0, 3, 1, 0, 0, 0],
  [35, 303, 236, -307, -275, 1, 10, 0, 4, 1, 5, -1, 3, 2, 1, -1, 5, 1, 3, 0, 0],
  [36, 313, 240, -313, -277, 0, 8, -2, 3, 1, 6, 0, 3, 0, 1, 1, 5, -1, 2],
  [37, 324, 246, -319, -282, -2, 7, -1, 3, -1, 6, 0, 3, 0, 1, -1, 4],
  [38, 338, 254, -326, -288, -3, 6, -2, 2, 0, 6, -3, 2, 0, 4],
  [39, 350, 262, -329, -294, -5, 6, -2, 1, -2, 4, -1, 3]
]

set_option maxHeartbeats 1000000 in
/-- Level 1 of Munsell._TBL_SRC_MIN (delta-encoded source rows). -/
def _TBL_SRC_MIN_1 : List (List ℤ) := [
  [0, 353, 296, -321, -314, -3, 1, 0, -2, -4, 1, -2, 0, -1, 1],
  [1, 361, 303, -320, -316, -4, -1, 2, -3, -5, 1, -2, -2, -3, 1],
  [2, 369, 311, -320, -319, -3, -2, 4, -3, -8, -4, -5, 1, 0, -2],
  [3, 375, 318, -316, -319, -5, -4, 1, -4, -3, -7, -8, -1, -4, -1],
  [4, 381, 327, -314, -321, -6, -6, 1, -7, -8, -7, -6, -4, -4, -3],
  [5, 385, 337, -310, -323, -7, -7, 4, -6],
  [6, 388, 348, -309, -322, -3, -7],
  [7, 389, 359, -309, -322, -1, -6],
  [8, 387, 369, -306, -321],
  [9, 383, 379, -303, -319],
  [10, 376, 384, -298, -311],
  [11, 366, 386, -292, -300],
  [12, 356, 385, -293, -291],
  [13, 342, 380, -296, -285],
  [14, 331, 374, -304, -283, -1, 19],
  [15, 317, 365, -309, -284, -7, 11, -11, 21],
  [16, 307, 358, -315, -292, -6, 7, -8, 14, -10, 10, -8, 2],
  [17, 298, 351, -320, -302, -5, 3, -3, 0, -12, 14, -4, -5, -3, -6, 0, -5],
  [18, 292, 345, -320, -305, -4, -2, -2, -3, -8, 5, -2, -2, 1, -5, 2, -3],
  [19, 287, 340, -320, -309, -1, -4, -2, -1, -4, 1, -2, -2, 3, -4, 4, -3],
  [20, 282, 334, -320, -312, 3, -4, -3, -1, -1, -2, 0, -3, 6, -3, 2, -3],
  [21, 277, 327, -320, -316, 6, -4, -4, 0, 4, -4, 3, 0, 5, -2],
  [22, 270, 318, -317, -321, 8, -1, -4, -3, 7, -1, 8, 0],
  [23, 265, 310, -314, -322, 8, -1, -1, -1, 8, 1, 7, 3],
  [24, 261, 301, -312, -323, 8, 0, 2, -2, 8, 4],
  [25, 258, 294, -310, -323, 8, 0, 5, 1, 7, 3],
  [26, 256, 287, -307, -322, 8, -1, 6, 3, 9, 6],
  [27, 255, 280, -304, -320, 9, 3, 5, 3, 9, 7],
  [28, 256, 273, -302, -315, 8, 5, 6, 3, 8, 9],
  [29, 259, 268, -300, -311, 6, 4, 6, 6, 8, 8, 5, 5],
  [30, 264, 262, -302, -305, 6, 5, 7, 6, 6, 7, 5, 6, 3, 1],
  [31, 271, 258, -300, -301, 6, 7, 5, 7, 5, 5, 6, 7, 2, 4, 2, 1, 0, 2, 2, 3, -1, -1, 1, 3, 0, 0, 1, 1, -1, 0, 1, 0, -1, 1, 1, 0, -1, 0],
  [32, 280, 257, -300, -298, 4, 9, 1, 3, 6, 7, 3, 6, 1, 2, 1, 2, 1, 2, 1, 1, 0, 1, 0, 2, 1, 0, 0, 1, 0, 0, 0, 1, 0, 0],
  [33, 289, 258, -302, -295, 3, 8, 1, 1, 2, 6, 2, 5, 1, 2, 0, 3, 2, 1, -1, 2, 1, 1, 0, 0, 0, 2, 1, -1, -1, 1],
  [34, 298, 261, -305, -296, 1, 8, 0, -1, 2, 7, 0, 3, 1, 2, 0, 5, 1, 0, 0, 1, 1, 1, -1, 1, 1, 0, 0, 2],
  [35, 307, 265, -309, -298, 0, 7, -1, -2, 1, 7, 0, 3, 0, 3, 0, 2, 1, 2, 0, 1, 0, 0, 0, 2],
  [36, 316, 269, -313, -299, -1, 4, -1, -1, 0, 7, -1, 2, 1, 2, -1, 2, -1, 2, 1, 2, 0, 0],
  [37, 328, 275, -318, -300, -1, 1, 0, -2, -3, 6, -1, 2, -1, 1, 0, 3, -1, 2, -1, 1],
  [38, 338, 283, -320, -306, -3, 1, 0, -2, -4, 4, 0, 2, -1, 2, -1, 1, -2, 4],
  [39, 346, 289, -322, -310, -2, 2, 0, -2, -4, 1, -2, 2, -2, 2, -2, 2]
]

set_option maxHeartbeats 1000000 in
/-- Level 2 of Munsell._TBL_SRC_MIN (delta-encoded source rows). -/
def _TBL_SRC_MIN_2 : List (List ℤ) := [
  [0, 353, 307, -317, -317, -3, -1, 0, -1, -3, 0, -1, -1, -5, 1, 1, -1],
  [1, 359, 313, -316, -318, -4, -2, 2, -2, -4, -2, -2, -1, -6, 1, 0, -1],
  [2, 365, 319, -315, -319, -6, -2, 3, -4, -3, -3, -6, -3, -6, 1, 0, -2],
  [3, 369, 325, -314, -320, -5, -3, 1, -4, -3, -4, -5, -5, -10, -1, 0, -2],
  [4, 373, 331, -315, -321, -4, -4, 0, -5, -6, -5, -3, -4, -7, -3],
  [5, 376, 339, -316, -322, -1, -4, -6, -5, -7, -3],
  [6, 377, 348, -316, -324, -2, -5, -10, -6],
  [7, 377, 355, -316, -323, -6, -7, -9, -6],
  [8, 375, 363, -316, -324, -6, -8, -9, -8],
  [9, 370, 370, -312, -323, -8, -11],
  [10, 365, 375, -311, -322, -6, -10],
  [11, 359, 378, -309, -318, -6, -9],
  [12, 351, 379, -306, -313, -6, -8],
  [13, 341, 377, -305, -306, -6, -8],
  [14, 332, 373, -309, -303, -3, -2, -3, 4],
  [15, 318, 364, -309, -299, -3, 3, -5, 5, -8, 2],
  [16, 309, 358, -313, -304, -2, 6, -4, 4, -7, 3, -2, 0, -6, 5],
  [17, 300, 350, -316, -308, -4, 0, 0, -1, -7, 5, 0, -3, 0, -2, -2, -4, 0, -2, -4, 1, 0, -2],
  [18, 294, 344, -317, -310, -1, -2, 0, -4, -5, 2, 1, -3, 0, -2, 2, -4, 2, -1, -2, -1, -2, 2],
  [19, 289, 339, -316, -311, 0, -5, 1, -3, -3, 1, 1, -1, 2, -4, 2, -1, 2, -2, -1, 0, -1, 0],
  [20, 284, 334, -315, -314, 2, -4, 2, -2, -1, -1, 0, 0, 3, -4, 2, 0, 2, -3, 2, -1, -1, 0],
  [21, 280, 327, -316, -315, 5, -4, 3, -2, -2, -1, 4, -1, 2, -1, 3, -1, 2, -1, 2, 1],
  [22, 274, 319, -314, -318, 8, -2, 0, -2, 3, -1, 4, -1, 3, 1, 2, -1, 4, 1],
  [23, 270, 312, -313, -320, 9, 0, 3, -1, 2, 0, 5, 2, 2, -1, 4, 1],
  [24, 266, 305, -310, -321, 8, -1, 5, 2, 1, -1, 7, 3, 1, 0],
  [25, 264, 298, -310, -321, 11, 2, 3, 0, 3, 1, 6, 3],
  [26, 262, 292, -306, -321, 10, 4, 3, -1, 4, 2, 5, 4],
  [27, 262, 286, -304, -318, 10, 4, 2, 1, 6, 4, 3, 1],
  [28, 263, 280, -301, -313, 6, 3, 5, 4, 4, 3, 3, 1, 4, 5],
  [29, 266, 276, -301, -311, 6, 4, 5, 4, 4, 4, 2, 3, 3, 2],
  [30, 271, 272, -303, -308, 5, 5, 6, 6, 2, 1, 3, 4, 3, 2, 2, 2, 2, 4],
  [31, 278, 269, -304, -306, 5, 6, 5, 6, 2, 3, 3, 3, 3, 3, 3, 2, 1, 4, 1, 2, 1, -1, 0, 2, 0, 2, 1, 0, 0, 0, 0, 0, 1, 2],
  [32, 285, 267, -304, -302, 4, 6, 3, 5, 1, 2, 4, 6, 0, 0, 2, 3, 2, 3, 0, 1, 0, 1, 1, 0, 0, 2, 1, 0, 0, 1, 0, -1, 0, 2],
  [33, 292, 268, -305, -302, 3, 7, 3, 5, 0, 1, 2, 5, 0, 1, 1, 2, 1, 2, 0, 2, 1, 0, 0, 1, 0, 2, 0, -1, 0, 1, 1, 1, 0, 0],
  [34, 300, 270, -307, -301, 1, 6, 1, 2, 0, 3, 2, 3, 0, 3, 0, 1, 1, 2, 0, 2, 0, 0, 0, 0, 1, 2, 0, 0, 0, 1, 0, 0],
  [35, 309, 274, -311, -303, 1, 5, -1, 1, 0, 4, 0, 2, 1, 3, 0, 2, 0, 0, 0, 3, 0, 0, 0, 0, 1, 1, -1, 0, 0, 2],
  [36, 317, 279, -313, -306, -1, 4, 0, 2, -1, 2, -1, 2, 0, 2, 0, 4, 0, -2, -1, 4, 1, 0, -1, 0, 0, 1],
  [37, 327, 286, -314, -310, -3, 5, 0, -1, -2, 2, -1, 3, 0, 1, -1, 1, -1, 1, -1, 2, 1, -1],
  [38, 337, 294, -315, -314, -4, 3, -2, 0, -2, 1, -1, 1, -2, 0, 0, 2, -3, 2, 0, 0],
  [39, 345, 300, -316, -315, -4, 1, -1, -1, -2, 1, -2, -1, -2, 2, -2, 0, -2, 1]
]

set_option maxHeartbeats 1000000 in
/-- Level 3 of Munsell._TBL_SRC_MIN (delta-encoded source rows). -/
def _TBL_SRC_MIN_3 : List (List ℤ) := [
  [0, 342, 311, -312, -318, -2, 0, 0, -1, -3, 0, 1, -1, -3, -1, -2, 1, 3, -2, -4, 1],
  [1, 346, 315, -311, -317, -2, -2, 0, -2, -3, 0, 0, -1, 0, -2, -5, 0, 3, -1],
  [2, 351, 320, -310, -318, -3, -1, 1, -3, -4, -1, 0, -2, -1, -2, -3, -1, -2, -2],
  [3, 354, 324, -309, -318, -2, -2, 0, -2, -4, -3, -3, -2, 0, -2, -6, -3, -2, -1, -1, -2],
  [4, 358, 329, -308, -317, -4, -3, 0, -3, -4, -4, -4, -1, -3, -3, -9, -2],
  [5, 362, 337, -310, -320, -5, -4, -1, -2, -5, -3, -8, -3],
  [6, 365, 344, -311, -320, -8, -6, -4, -5, -6, -2, -6, -4],
  [7, 366, 350, -311, -319, -10, -9, -7, -5, -6, -3],
  [8, 366, 359, -313, -323, -10, -10, -8, -6, -7, -4],
  [9, 363, 365, -312, -322, -11, -12, -7, -7, -8, -7],
  [10, 359, 370, -311, -321, -10, -13, -8, -10],
  [11, 354, 373, -310, -319, -9, -12, -8, -12],
  [12, 348, 373, -309, -314, -7, -11, -8, -13],
  [13, 338, 371, -305, -309, -7, -9, -6, -9],
  [14, 331, 368, -308, -308, -5, -3, -3, -4, -4, -6],
  [15, 319, 360, -310, -304, -1, 2, -4, 3, -4, -5, -5, 0],
  [16, 311, 355, -312, -308, -2, 6, -3, 1, -4, 4, -5, 3, -2, -3, 0, -8],
  [17, 301, 347, -313, -312, -3, 5, -3, -2, -2, 3, -3, 1, 1, -7, -1, -2, 0, -1, 1, -4, 0, -1, -3, 0, 2, -2],
  [18, 296, 342, -314, -314, -2, 1, -2, -1, -2, -2, -4, 2, 7, -8, -2, 0, 2, -1, 4, -5, -1, 0, -5, 4, 3, -3],
  [19, 292, 337, -314, -314, -1, -1, -1, -2, 0, 0, -4, 0, 7, -6, 0, 0, 1, 0, 4, -4, 0, 0, -3, 1, 0, 0],
  [20, 288, 333, -313, -316, -1, -1, 1, -2, 1, -1, -4, 1, 8, -4, 1, -2, -1, 0, 4, -2, 1, -1, 0, 0, 0, 1],
  [21, 284, 327, -313, -316, 2, -3, 0, 0, 0, -2, 2, -1, 4, -1, 3, -1, 0, 0, 3, -1, 2, 0, 0, -1],
  [22, 280, 321, -312, -319, 2, -1, 1, -2, 2, 0, 3, -1, 3, -1, 3, 0, 2, 0, 1, 0],
  [23, 276, 315, -309, -319, 1, -2, 3, 0, 1, -2, 4, 1, 3, 0, 4, 2, 2, 0],
  [24, 274, 309, -310, -320, 5, -1, 0, -1, 3, 0, 5, 1, 1, 2, 8, 2],
  [25, 273, 304, -310, -321, 6, 1, 0, -3, 3, 2, 7, 3, -1, -1, 9, 6],
  [26, 272, 299, -308, -320, 6, 0, 0, -1, 5, 2, 4, 1, 1, 2],
  [27, 273, 295, -307, -320, 5, 2, 1, -1, 6, 4, 1, 1, 2, 1],
  [28, 275, 291, -307, -317, 5, 2, 0, -1, 6, 4, 2, 2, 1, 1, 3, 2],
  [29, 278, 288, -307, -316, 4, 2, 1, 1, 5, 5, 1, 1, 2, 0, 3, 3, 1, 2],
  [30, 282, 284, -308, -312, 3, 2, 0, 1, 6, 4, 1, 3, 2, 0, 1, 2, 2, 1, 1, 1],
  [31, 286, 282, -306, -311, 1, 3, 2, 1, 3, 4, 2, 3, 2, 2, 2, 1, 2, 2, 0, 0, 3, 5, 0, 0, 1, 1],
  [32, 291, 280, -306, -308, 1, 2, 2, 4, 1, 2, 2, 2, 1, 2, 3, 3, 0, 2, 1, -1, 1, 4, 0, 1, 0, -2, 1, 3, 0, 0],
  [33, 296, 281, -306, -309, 0, 5, 3, 2, 0, 2, 1, 2, 1, 3, 1, 0, 0, 2, 0, 1, 2, 3, 0, 0, -1, 0, 1, 1, 1, 1, -1, -2],
  [34, 302, 283, -308, -309, 0, 4, 2, 2, -1, 2, 2, 2, 0, 1, 0, 1, 0, 3, 1, 0, 0, 3, 1, -1, -1, 1, 0, 0, 1, 2, -1, -2],
  [35, 309, 286, -310, -310, 1, 4, -1, 1, 0, 2, 0, 2, 0, 0, 0, 1, 0, 2, 0, 2, 0, 1, 0, 1, 1, -1, -1, 1, 0, 0, 0, 1],
  [36, 316, 290, -311, -311, -1, 1, -1, 3, 0, 1, -1, 1, 0, 2, 0, 1, 0, -1, -1, 0, 0, 5, 0, 0, 0, -1, -1, 1, 1, -1],
  [37, 323, 295, -312, -313, -1, 1, -1, 1, -1, 2, -1, 0, 0, 2, -1, 0, 0, 0, 0, 0, -2, 3, 0, 0, 0, 2],
  [38, 331, 301, -313, -315, 0, 0, -2, 1, -3, 2, 1, -2, -1, 2, -2, 0, 1, -1, -1, 1, -2, 2],
  [39, 337, 306, -313, -316, 0, 0, -2, -1, -3, 1, 0, -1, -1, 1, -1, -1, 0, 0, -1, -1]
]

set_option maxHeartbeats 1000000 in
/-- Level 4 of Munsell._TBL_SRC_MIN (delta-encoded source rows). -/
def _TBL_SRC_MIN_4 : List (List ℤ) := [
  [0, 333, 313, -307, -317, 0, -1, 0, -1, -4, 0, 3, -2, -6, 2, 3, -2, -2, 0, 1, 0],
  [1, 336, 316, -306, -317, 0, -1, -1, -1, -1, -1, 1, -2, -6, 1, 2, -2, -1, -1, 0, 0],
  [2, 339, 319, -304, -316, -1, -1, -1, -2, 1, -1, -2, -3, -5, 1, 3, -3, -2, 0, -6, -1],
  [3, 343, 323, -305, -317, -1, 0, 1, -2, -1, -3, -2, -2, -4, -1, 0, -2, -5, -1, -3, -1],
  [4, 347, 328, -306, -316, 1, -2, -1, -2, -1, -3, -3, -2, -8, -3, -2, 0, -1, -2],
  [5, 351, 334, -309, -319, 2, 0, -1, -3, -5, -4, -8, -1, -5, -3, -5, 0],
  [6, 353, 340, -309, -319, 1, -1, -4, -5, -8, -5, -7, -2, -4, -2],
  [7, 354, 345, -309, -319, 0, -2, -7, -5, -9, -5, -6, -4, -6, -3],
  [8, 355, 351, -310, -318, -2, -4, -9, -8, -9, -6, -6, -4],
  [9, 353, 357, -309, -319, -3, -4, -10, -11, -9, -7, -5, -3],
  [10, 350, 362, -308, -318, -4, -6, -10, -13, -8, -6, -5, -5],
  [11, 347, 364, -309, -316, -3, -5, -10, -13, -7, -9, -4, -6],
  [12, 342, 365, -308, -314, -3, -5, -7, -11, -8, -11, -4, -6],
  [13, 335, 364, -308, -314, -1, 1, -5, -9, -8, -12, -2, -7],
  [14, 329, 361, -310, -312, -1, 2, -2, -3, -5, -8, -3, -9],
  [15, 319, 356, -311, -313, 0, 6, -2, 1, -2, 1, -4, -5, -2, -7],
  [16, 311, 351, -311, -314, 0, 5, -3, 4, -2, 2, -4, 3, -1, -5, -4, 3, -1, -1],
  [17, 303, 345, -312, -316, -1, 2, -3, 2, -1, 0, -4, 3, 0, -2, -2, 1, -3, -1, 3, -5, 0, -1, 1, -3, -1, -1, 0, -1],
  [18, 298, 339, -312, -315, -1, -1, -3, 2, 0, -3, -5, 3, 4, -6, -2, 2, 0, -2, 4, -4, -1, -1, -1, 3, 2, -4, 0, 1],
  [19, 295, 336, -312, -317, -1, -2, -2, 3, 0, -4, -4, 3, 6, -4, -3, -1, 1, 1, 4, -4, 0, 0, -1, 0, 2, -2, 1, 0],
  [20, 291, 331, -311, -316, 1, -2, -3, 1, 2, -2, -5, 2, 7, -4, -2, 0, 1, 0, 3, -3, 0, 0, 1, -1, 3, -1, 0, 0],
  [21, 288, 327, -310, -317, 1, -2, -3, 1, 1, -2, -1, -1, 6, -2, -3, 0, 3, 0, 2, -2, 1, 0, 3, 0],
  [22, 284, 321, -309, -317, 2, -2, -3, -1, 1, -1, 1, 0, 8, 0, -5, -2, 2, 0, 4, 1, 3, -1],
  [23, 281, 316, -307, -317, 0, -1, 0, -3, 1, 0, 1, 0, 6, 0, -1, 0, 0, 0],
  [24, 280, 311, -309, -318, 1, -2, 2, 0, 1, -1, 2, 0, 5, 2, -2, -1],
  [25, 279, 307, -309, -319, 2, -1, 2, 0, 1, -1, 1, 0, 6, 2, -1, 0],
  [26, 279, 303, -309, -318, 3, -3, 1, 0, 3, 1, 1, -1, 3, 3, 0, -1],
  [27, 280, 300, -309, -319, 3, -1, 2, 1, 2, 0, 1, 0, 3, 3, 1, -1],
  [28, 282, 297, -309, -318, 2, 0, 2, 0, 2, 2, 2, 0, 1, 3, 2, -1, 3, 5],
  [29, 285, 294, -310, -316, 2, -1, 2, 2, 2, 1, 1, 1, 3, 3, 1, -1, 0, 2],
  [30, 288, 292, -310, -315, 1, -1, 2, 3, 1, 1, 2, 2, 1, 1, 2, 0, 1, 2],
  [31, 292, 291, -310, -315, 0, -1, 4, 3, 1, 4, 0, -1, 1, 2, 3, 2, 0, 1, 2, 1],
  [32, 296, 291, -310, -316, 1, 0, 1, 5, 3, 2, -1, 1, 2, 1, 0, 2, 3, 2, 0, 1, 1, 1],
  [33, 300, 291, -310, -315, 1, 1, 1, 3, 2, 4, 0, -1, 1, 3, 1, 1, 0, 2, 0, 0, 0, 1, 1, 0, 1, 2],
  [34, 305, 293, -311, -316, 0, 2, 2, 2, 0, 3, 0, 0, 1, 3, -1, 0, 2, 1, -1, 2, 1, 0, 0, 0, 1, 2, -1, 0],
  [35, 310, 296, -310, -317, -1, 2, 1, 1, -1, 3, 0, 0, 1, 2, -1, 1, 0, 0, 0, 2, 1, -1, -1, 3, 0, -1, 1, 1, -1, 0],
  [36, 315, 299, -310, -317, -1, 0, 0, 1, -1, 4, 0, -1, -1, 2, 0, 0, 0, 1, 0, 1, 0, 0, -1, 2, 1, -2, -1, 3, 0, -1],
  [37, 320, 302, -310, -317, 0, 0, -1, 0, -2, 3, 1, 0, -2, 0, 0, 2, 0, 0, -1, 0, 0, 0, 0, 3, -1, -2],
  [38, 326, 307, -310, -319, 1, 1, -1, 0, -3, 1, 1, -1, -2, 2, 0, -1, -1, 1, 0, 0, -1, 1, 0, -1],
  [39, 330, 310, -308, -318, -1, 0, -1, -1, -2, 1, 1, -1, -4, 1, 2, -1, -3, 0, 2, 0, -4, 1]
]

set_option maxHeartbeats 1000000 in
/-- Level 5 of Munsell._TBL_SRC_MIN (delta-encoded source rows). -/
def _TBL_SRC_MIN_5 : List (List ℤ) := [
  [0, 329, 314, -307, -317, 1, -1, -4, 1, 3, -2, -1, 0, -2, -1, 4, -1, -5, 1],
  [1, 332, 317, -307, -318, 1, 1, -2, -2, 1, 0, 0, -2, -3, 0, 3, -2, -3, 1],
  [2, 334, 319, -305, -316, 0, -1, -2, -1, 2, -1, -1, -2, -2, 0, 2, -1, -3, -1],
  [3, 338, 323, -307, -317, 0, -1, 1, -1, 2, -1, -4, -1, 1, -2, -2, -1, -2, -1],
  [4, 342, 327, -307, -316, -2, -2, 2, -1, 1, -1, -2, -2, -2, -2, -5, -2, 0, 0],
  [5, 345, 332, -309, -317, 1, -2, -2, -2, 1, -1, -3, -2, -6, -2, -6, -2, -3, -1],
  [6, 347, 337, -310, -318, 2, 0, -3, -4, -3, -3, -5, -2, -6, -3, -4, -2, -6, -2],
  [7, 349, 342, -312, -319, 1, 0, -2, -5, -6, -2, -5, -5, -8, -3, -2, -1],
  [8, 349, 348, -312, -319, 1, -3, -5, -4, -6, -5, -6, -5, -6, -4],
  [9, 348, 354, -312, -321, 0, -2, -4, -7, -8, -5, -7, -7, -4, -2],
  [10, 346, 358, -313, -320, 2, -3, -6, -7, -8, -8, -7, -7, -1, -1],
  [11, 343, 360, -311, -320, -1, 0, -5, -8, -7, -10, -6, -7, -2, -2],
  [12, 340, 361, -312, -319, 0, 0, -4, -6, -7, -10, -5, -9, -2, -2],
  [13, 334, 361, -311, -318, 0, 0, -2, -1, -6, -12, -4, -8, -3, -4],
  [14, 329, 359, -312, -317, -1, 1, -1, 1, -3, -6, -3, -8, -3, -7],
  [15, 319, 355, -310, -318, -2, 3, 0, 5, -3, -2, -1, -3, -2, -1, -1, -10],
  [16, 311, 350, -310, -318, 0, 4, -2, 2, -2, 1, -2, 2, -3, 3, -1, -4, -2, 2, 0, -4],
  [17, 304, 344, -311, -318, -1, 0, -1, 2, -2, 1, -1, -1, -2, 4, -1, -2, -3, 1, 0, -1, 0, -2, -2, 1, 0, -3, 1, -1],
  [18, 299, 338, -311, -316, 0, -2, -2, -1, 0, 0, -4, 2, 2, -3, -1, 0, 0, -1, -1, 0, 0, -1, 0, 0, 1, -1, 0, -1],
  [19, 296, 334, -311, -316, 0, -3, 0, 1, -1, -1, -2, 1, 1, -2, 0, -1, -1, 1, 2, -1, 0, -1, -1, -1, 2, 0, 0, 0],
  [20, 293, 330, -311, -316, 2, -2, -1, 0, 0, 0, -2, -1, 3, 0, -2, -2, 1, 1, 0, -1, 2, -1, -1, 0, 3, -2],
  [21, 290, 327, -310, -317, 3, -2, -3, -1, 2, -1, -2, 1, 3, -2, -1, 0, 1, -1, 1, 0, 1, -1],
  [22, 287, 322, -309, -318, 1, -1, 1, -1, 0, 0, 0, -1, 2, -1, 1, 1, 1, -1, 0, -1],
  [23, 285, 317, -310, -317, 3, -1, 1, -1, 0, -1, 1, 0, 3, 0, -1, 0, 2, -1],
  [24, 284, 313, -310, -318, 2, -1, 2, -1, 1, 0, 0, -1, 3, 1, 0, -1, 2, 1],
  [25, 284, 310, -311, -319, 1, -2, 3, 0, 3, 0, -2, -1, 4, 2, -1, -1],
  [26, 284, 306, -310, -318, 0, -3, 3, 0, 2, 0, 2, 0, 0, 0, 0, 1],
  [27, 285, 304, -310, -320, 0, -1, 3, 0, 2, 0, 0, 0, 3, 1, -1, 0],
  [28, 287, 301, -310, -318, -1, -2, 3, 1, 2, 1, -1, -2, 3, 3, -1, -1],
  [29, 290, 299, -312, -318, 1, -1, 1, 1, 3, 1, -2, -1, 3, 2],
  [30, 292, 298, -311, -318, -1, -2, 3, 3, 1, 1, -1, -1, 1, 1],
  [31, 296, 296, -312, -317, 0, -1, 3, 4, 0, 0, -1, -1, 2, 1],
  [32, 299, 296, -312, -317, 1, -1, 2, 4, 0, 1, 0, -1, 1, 2, 1, -1],
  [33, 302, 296, -311, -316, 0, -1, 2, 3, 0, 1, 2, 2, -1, 1, 2, 0, -1, 3],
  [34, 305, 297, -310, -316, 0, 0, 1, 2, -1, 1, 2, 2, -1, 0, 1, 1, 0, 2, 0, -1],
  [35, 311, 299, -311, -315, -1, -2, 1, 3, -1, 0, 1, 2, -1, 1, 1, 0, 0, 1, -1, -1, 0, 1, 1, 2],
  [36, 315, 302, -312, -317, 2, 0, -2, 1, 0, 1, 0, 1, 0, -1, -1, 3, 0, 0, 0, -2, 0, 3, -1, 0, 1, -1],
  [37, 319, 305, -311, -317, 1, -1, -1, 2, -1, 0, 0, -1, 0, 2, 0, -1, -2, 2, 1, -1, -1, 2, 0, -1],
  [38, 323, 309, -309, -318, 1, -1, -2, 2, -1, 0, 1, -1, -1, -1, 0, 2, -1, -1, 1, -1, -4, 4],
  [39, 326, 311, -308, -316, 2, -2, -5, 1, 2, -1, 0, -1, -1, 1, 0, -2, -3, 2, 3, -2]
]

set_option maxHeartbeats 1000000 in
/-- Level 6 of Munsell._TBL_SRC_MIN (delta-encoded source rows). -/
def _TBL_SRC_MIN_6 : List (List ℤ) := [
  [0, 326, 315, -307, -317, 1, -1, 0, 0, -1, -1, 3, -1, -2, 0, -1, 0],
  [1, 328, 317, -306, -317, 1, 0, 0, -1, -1, -1, 4, 0, -4, -2, 1, 0],
  [2, 331, 319, -307, -316, 2, -1, 0, 0, -1, -2, 3, -1, -3, 0],
  [3, 334, 322, -307, -316, 1, 0, 3, -2, -4, -1, 4, 0, -3, -2, 0, -1],
  [4, 336, 325, -305, -314, 0, -2, 2, -1, -4, -1, 4, -1, -3, -2, -1, -1],
  [5, 339, 330, -306, -316, 0, -1, -1, -2, -2, -2, 3, 0, -3, -1, -8, -3, -4, -2, -6, 0],
  [6, 342, 335, -309, -317, 1, -1, -3, -3, 0, -1, -1, -2, -6, -2, -5, -3, -7, -2, -2, -1],
  [7, 344, 340, -311, -319, 1, 0, -3, -3, -3, -3, -1, -2, -7, -3, -5, -3, -5, -3],
  [8, 344, 345, -310, -318, -2, -3, -2, -4, -3, -2, -4, -4, -6, -4, -5, -3, -3, -2],
  [9, 344, 351, -312, -322, -1, -2, -3, -3, -2, -3, -6, -6, -6, -5, -4, -3],
  [10, 342, 354, -312, -319, -1, -4, -3, -5, -2, -2, -7, -8, -6, -5, -2, -3],
  [11, 340, 356, -312, -319, -2, -4, -2, -2, -2, -5, -7, -9, -5, -4, -2, -4],
  [12, 337, 357, -312, -319, -1, -2, -1, -3, -3, -3, -7, -11, -3, -4, -4, -5],
  [13, 333, 357, -313, -319, 0, -1, -1, -1, -2, -1, -5, -11, -2, -5, -4, -7],
  [14, 328, 356, -312, -319, -2, -1, 0, 2, -1, 0, -3, -6, -2, -7, -3, -9],
  [15, 319, 352, -311, -319, -1, 1, 0, 3, -2, 2, -1, -1, -1, -1, -1, -7, -1, -6],
  [16, 312, 347, -311, -318, 0, 1, -1, 3, -2, 1, -1, 2, -1, 1, -3, 1, 0, -3, -2, 2, 0, -4],
  [17, 305, 341, -311, -318, 0, 0, -1, 3, -1, 1, -3, 0, 1, -1, -2, 1, 0, 0, -3, 0, 0, 1, 0, -3, -4, 3],
  [18, 300, 337, -310, -319, 0, -1, -1, 1, -3, 1, 1, -1, -3, 0, 1, -1, 1, -2, -2, 1, 1, -2, 1, -1, 2, -2],
  [19, 297, 333, -309, -318, 0, -1, -1, 0, -2, 1, 0, 0, -1, -1, 0, -1, 2, -1, -1, 0, 0, -1, 3, -1, 0, -2],
  [20, 295, 330, -310, -318, 1, -1, -1, 0, -1, 0, 1, -1, -2, 1, 2, -2, 0, 0, 1, -1, -2, 1, 4, -2],
  [21, 293, 327, -310, -319, 2, 0, -2, 0, -1, -1, 2, -1, -1, -1, 3, 0, -2, 0, 2, -1, -2, 0],
  [22, 290, 323, -309, -319, 2, -1, -2, 1, 0, -2, 3, 0, 0, -1, 0, 0, 0, 0, 2, -1],
  [23, 288, 318, -309, -317, 3, -1, -2, -1, 0, 0, 2, -1, 2, 0, -1, -1, 2, 1],
  [24, 287, 314, -310, -317, 4, -1, -2, -2, 1, 1, 0, -2, 3, 1, -1, 0],
  [25, 287, 311, -311, -318, 3, -1, 0, -1, -1, 0, 3, -2, 1, 2, 0, -2],
  [26, 288, 308, -313, -319, 3, -1, 1, 0, 0, -3, 0, 0, 5, 3],
  [27, 289, 306, -313, -319, 3, -1, 0, -2, 0, 0, 1, -1],
  [28, 291, 304, -313, -319, 1, -1, 1, -1, 0, -1, 0, 0],
  [29, 293, 303, -313, -321, 1, 1, 0, -1, 0, -1],
  [30, 295, 301, -313, -319, 1, -1, 0, 1, -1, -1],
  [31, 298, 300, -313, -319, 1, -1, 0, 1, 0, -1],
  [32, 301, 300, -313, -320, 1, 1, 0, 1, 0, -1, 2, 1],
  [33, 303, 300, -311, -319, 0, 1, 1, 1, 0, 0, 0, 1],
  [34, 306, 301, -311, -319, 0, 1, 1, 1, -1, 0, 1, 2, 1, 1],
  [35, 311, 304, -311, -320, 0, 1, 0, 0, 0, 1, -1, 2, 1, -1, 0, 1, -1, 1],
  [36, 314, 305, -310, -318, 0, 0, 0, -1, -1, 2, -1, 1, 1, 0, 0, -1, -1, 2, 0, 0, 0, -1],
  [37, 317, 308, -309, -319, 1, -1, -1, 2, -1, 0, 0, 0, -1, 0, 1, -1, -1, 1, 0, 0],
  [38, 321, 310, -309, -317, 2, -1, -1, 0, -2, 1, 2, -2, -1, 1, 0, -1, -1, 1],
  [39, 323, 313, -307, -318, 1, -1, -1, 0, -1, 1, 2, -3, -1, 1, -1, 0]
]

set_option maxHeartbeats 1000000 in
/-- Level 7 of Munsell._TBL_SRC_MIN (delta-encoded source rows). -/
def _TBL_SRC_MIN_7 : List (List ℤ) := [
  [0, 322, 315, -303, -316, 0, -2, 1, 0, -2, 0],
  [1, 324, 317, -302, -316, -1, -1, 2, -1, 0, 0],
  [2, 325, 319, -299, -316, -3, 0, 3, -2, -1, 0],
  [3, 328, 321, -300, -314, -1, -1, 2, -1, -2, -2],
  [4, 330, 324, -298, -313, -3, -2, 1, 0, -2, -3],
  [5, 333, 328, -299, -313, -5, -3, 3, -1, -5, -1, 3, -1],
  [6, 337, 333, -305, -315, -2, -3, 2, 1, -5, -4, 0, -1, -3, -1],
  [7, 340, 338, -310, -317, 0, -3, 1, 0, -5, -3, -1, -2, -5, -2, -2, -3, -6, -2, -5, -2],
  [8, 341, 343, -312, -319, 0, -1, 0, -3, -4, -3, -3, -3, -3, -2, -5, -4, -4, -2, -3, -2],
  [9, 341, 348, -314, -321, 2, -1, -3, -4, -2, -3, -3, -2, -5, -5, -4, -3, -5, -3, -1, -2],
  [10, 339, 352, -313, -321, 0, -2, -1, -3, -3, -4, -4, -3, -4, -6, -5, -4, -3, -3],
  [11, 338, 354, -314, -322, 0, 0, -1, -3, -4, -5, -1, -3, -7, -7, -2, -4, -4, -4],
  [12, 336, 355, -314, -322, 0, 1, -1, -4, -3, -3, -3, -4, -4, -7, -3, -4, -4, -5],
  [13, 333, 356, -316, -323, 2, 1, -2, -2, -1, 0, -3, -6, -2, -5, -4, -7, -3, -6],
  [14, 328, 354, -313, -321, -1, 1, -1, -1, -1, 1, -2, -2, -1, -5, -4, -10, -1, -2, -1, -8],
  [15, 319, 350, -311, -319, -1, 1, 0, 0, -2, 2, 0, 1, -1, 0, -2, -4, 0, -5, -2, -8],
  [16, 312, 346, -310, -319, -1, 1, -1, -1, -1, 5, -1, 1, -1, -1, -2, 1, 0, 1, -2, 0, 0, -4, 0, -2],
  [17, 305, 340, -309, -319, -2, 3, 1, -2, -2, 1, -2, 2, 1, -2, -2, 3, -1, 1, 0, -2, -1, -1, -1, -1],
  [18, 301, 336, -310, -320, -1, 2, 0, -1, -1, -1, -1, 0, 0, 0, -1, -1, -1, 0, 0, 1, 0, -3],
  [19, 298, 333, -309, -320, -1, 2, 1, -3, -1, 2, -2, -1, 1, 0, 0, -1, -1, 0, 1, 0],
  [20, 296, 329, -309, -318, -1, 0, 1, -1, 0, 0, -2, 0, 2, -1, -1, 0, 0, 1, 0, -3],
  [21, 294, 327, -309, -319, 1, 0, -1, -1, 0, 0, 0, -1, 1, -1, 0, 0, -2, 0],
  [22, 292, 323, -309, -318, 1, -1, -1, -1, 1, 0, 0, 0, 2, -1, -1, 0],
  [23, 290, 318, -308, -316, -1, -2, 1, 0, 1, 0, 0, -1, 3, 0, -1, 0],
  [24, 289, 315, -309, -317, 0, -1, 1, -1, 1, 1, 0, -2, 3, 1],
  [25, 290, 312, -313, -317, 2, -2, 1, -1, 1, 0, 0, -1],
  [26, 291, 310, -315, -320, 3, -1, -1, -2],
  [27, 292, 308, -315, -320, 1, -2, 0, -1],
  [28, 294, 306, -316, -321, 1, 0, -1, -2],
  [29, 296, 305, -316, -322, 0, 0],
  [30, 297, 304, -314, -322, -2, -1],
  [31, 300, 303, -314, -321, -2, -2],
  [32, 303, 304, -315, -323, 0, -1, 1, -1],
  [33, 305, 304, -314, -323, 1, 1, 0, 0],
  [34, 307, 305, -313, -323, 1, 1, 0, 0, 1, 2],
  [35, 311, 307, -311, -322, 0, 2, 1, -3, -1, 3, 0, 0],
  [36, 313, 308, -308, -320, -2, -1, 1, 0, -1, 1, 0, 1, 0, -1],
  [37, 315, 310, -306, -320, 0, 0, -1, -1, -1, 2, 0, -2, 0, 2],
  [38, 318, 312, -305, -319, 0, 0, 0, -1, -1, 1, 1, -2],
  [39, 320, 314, -304, -319, 0, 0, 0, -1, -1, 1, 2, -2]
]

set_option maxHeartbeats 1000000 in
/-- Level 8 of Munsell._TBL_SRC_MIN (delta-encoded source rows). -/
def _TBL_SRC_MIN_8 : List (List ℤ) := [
  [0, 321, 316, -302, -318, 0, 0],
  [1, 321, 317, -297, -316, -2, -1],
  [2, 324, 319, -298, -315, -3, -1],
  [3, 326, 321, -297, -314, -3, 0],
  [4, 328, 323, -296, -311, -4, -3],
  [5, 332, 327, -300, -312, -3, -2],
  [6, 335, 333, -303, -315, -4, -3],
  [7, 338, 338, -308, -317, -3, -4, 0, 0],
  [8, 339, 343, -310, -319, -3, -3, 0, -2],
  [9, 339, 347, -312, -320, -2, -4, -1, -1, -2, -4, -2, -2],
  [10, 338, 350, -314, -320, 0, -3, -2, -2, -2, -4, -2, -2, -4, -4, -3, -4, -4, -4, -2, -3],
  [11, 337, 353, -315, -323, 0, -1, -1, -2, -3, -4, -1, -2, -4, -5, -3, -5, -4, -2],
  [12, 335, 354, -314, -323, -1, 0, 0, -2, -4, -5, -1, -1, -3, -5, -3, -5, -3, -4],
  [13, 332, 354, -314, -321, -1, -2, -1, 0, -2, -4, 0, 0, -4, -6, -2, -7, -2, -1],
  [14, 328, 353, -312, -320, -3, -1, 0, 0, -2, -3, -1, 0, -2, -4, -1, -4, -2, -5],
  [15, 320, 350, -313, -321, 1, 3, -2, -1, 0, 1, -1, -2, -2, 0, 0, 1, -1, -4],
  [16, 312, 345, -310, -319, -1, 4, 0, -5, -1, 5, -2, -3, 0, 3, -2, 1, -1, 0],
  [17, 306, 340, -310, -319, -1, 3, -1, -4, 0, 3, 0, -2, -2, 3, 0, 0],
  [18, 302, 336, -311, -320, -1, 2, 1, -3, -1, 0, -1, 1],
  [19, 299, 332, -310, -318, -1, 1, 1, -2, 1, -1, -3, 1],
  [20, 297, 329, -310, -318, -1, 0, 1, 0, 2, -3, -2, 2],
  [21, 295, 327, -309, -319, -2, 0, 2, 0, 1, -2],
  [22, 293, 323, -309, -317, -1, -1, 1, -1, 2, -1],
  [23, 291, 319, -309, -317, -1, -1, 1, 0, 4, -1],
  [24, 291, 316, -312, -318, 1, 0],
  [25, 291, 313, -314, -319],
  [26, 292, 310, -316, -319],
  [27, 294, 309, -319, -322],
  [28, 295, 308, -319, -324],
  [29, 298, 306],
  [30, 299, 306],
  [31, 302, 305],
  [32, 304, 305, -317, -325],
  [33, 305, 305, -314, -323],
  [34, 307, 306, -314, -325],
  [35, 311, 308, -310, -323, -1, 1],
  [36, 313, 309, -308, -321, -1, 0],
  [37, 315, 311, -307, -321, 1, 0],
  [38, 317, 313, -304, -320, 0, 0],
  [39, 319, 314, -303, -318, 0, -1]
]

/-- Munsell._TBL_SRC_MIN: the delta-encoded source table, one list per
lightness level, each row starting with its hue-bucket index. -/
def _TBL_SRC_MIN : List (List (List ℤ)) :=
  [_TBL_SRC_MIN_0, _TBL_SRC_MIN_1, _TBL_SRC_MIN_2, _TBL_SRC_MIN_3, _TBL_SRC_MIN_4, _TBL_SRC_MIN_5, _TBL_SRC_MIN_6, _TBL_SRC_MIN_7, _TBL_SRC_MIN_8]

/-- One pass of the in-place pair-wise prefix summing done by _integrate in
_initTable (cs[i] and cs[i+1] accumulate the running sums of the even and odd
positions respectively), expressed on the list of pairs. -/
def _integrate (acc : ℤ × ℤ) : List (ℤ × ℤ) → List (ℤ × ℤ)
  | [] => []
  | p :: rest =>
    let acc2 := (acc.1 + p.1, acc.2 + p.2)
    acc2 :: _integrate acc2 rest

/-- Group a flat list into consecutive pairs (the rows always have even data length). -/
def _toPairs : List ℤ → List (ℤ × ℤ)
  | a :: b :: rest => (a, b) :: _toPairs rest
  | _ => []

/-- Decode one table row body: integrate twice and scale by 1/1000, as
_initTable does. -/
def _decodeRow (cs : List ℤ) : List (ℝ × ℝ) :=
  (_integrate (0, 0) (_integrate (0, 0) (_toPairs cs))).map
    (fun p => ((p.1 : ℝ) / 1000, (p.2 : ℝ) / 1000))

/-- The data of the row with hue-bucket index c0 at lightness index vi
(the first element of each source row is its index, removed by shift). -/
def _rowData (vi c0 : ℕ) : Option (List ℤ) :=
  (_TBL_SRC_MIN.get? vi).bind fun rows =>
    (rows.find? fun row => row.head? == some (c0 : ℤ)).map List.tail

/-- Munsell._TBL after initialization: entry k holds the (x, y) pair for
chroma 2k; index 0 is never populated (JS leaves it undefined). -/
def _TBL (vi c0 k : ℕ) : Option (ℝ × ℝ) :=
  if k = 0 then Option.none
  else (_rowData vi c0).bind fun cs => (_decodeRow cs).get? (k - 1)

/-- Munsell._TBL_MAX_C after initialization: the maximum tabulated chroma of
a hue bucket (0 for a missing row). -/
def _TBL_MAX_C (vi c0 : ℕ) : ℕ :=
  match _rowData vi c0 with
  | some cs => 2 * (_toPairs cs).length
  | none => 0

/-- Munsell._getXy: illuminant C white point at chroma 0, else a table entry
(Option.none models the undefined entries the source tests against null). -/
def _getXy (vi h10 c : ℕ) : Option (ℝ × ℝ) :=
  if c = 0 then some _ILLUMINANT_C
  else _TBL vi (h10 / 25) (c / 2)

def _cross (ax ay bx b_y : ℝ) : ℝ := ax * b_y - ay * bx

/-- Munsell._isInside: the point (x, y) lies inside (with boundary) the
clockwise triangle a b c; the source returns false as soon as one signed
area is negative. -/
def _isInside (a b c : ℝ × ℝ) (x y : ℝ) : Prop :=
  0 ≤ _cross (x - a.1) (y - a.2) (b.1 - a.1) (b.2 - a.2) ∧
  0 ≤ _cross (x - b.1) (y - b.2) (c.1 - b.1) (c.2 - b.2) ∧
  0 ≤ _cross (x - c.1) (y - c.2) (a.1 - c.1) (a.2 - c.2)

instance (a b c : ℝ × ℝ) (x y : ℝ) : Decidable (_isInside a b c x y) := by
  unfold _isInside
  infer_instance

/-- Munsell._interpolationRatio. A negative discriminant makes the JS sqrt
NaN so both solution-range tests fail there, which is modelled by the
explicit discriminant test keeping v at -1. -/
def _interpolationRatio (x y : ℝ) (a d b c : ℝ × ℝ) : Option (ℝ × ℝ) :=
  let ea := (a.1 - d.1) * (a.2 + c.2 - b.2 - d.2) - (a.1 + c.1 - b.1 - d.1) * (a.2 - d.2)
  let eb := (x - a.1) * (a.2 + c.2 - b.2 - d.2) + (a.1 - d.1) * (b.2 - a.2)
            - (a.1 + c.1 - b.1 - d.1) * (y - a.2) - (b.1 - a.1) * (a.2 - d.2)
  let ec := (x - a.1) * (b.2 - a.2) - (y - a.2) * (b.1 - a.1)
  let v : ℝ :=
    if _eq0 ea then (if ¬ _eq0 eb then -ec / eb else -1)
    else if eb * eb - 4 * ea * ec < 0 then -1
    else
      let rt := Real.sqrt (eb * eb - 4 * ea * ec)
      let v1 := (-eb + rt) / (2 * ea)
      let v2 := (-eb - rt) / (2 * ea)
      if a.1 = b.1 ∧ a.2 = b.2 then (if 0 ≤ v2 ∧ v2 ≤ 1 then v2 else -1)
      else if 0 ≤ v1 ∧ v1 ≤ 1 then v1
      else if 0 ≤ v2 ∧ v2 ≤ 1 then v2
      else -1
  if v < 0 then Option.none
  else
    let deX := (a.1 - d.1 - b.1 + c.1) * v - a.1 + b.1
    let deY := (a.2 - d.2 - b.2 + c.2) * v - a.2 + b.2
    let h1 := if ¬ _eq0 deX then ((a.1 - d.1) * v + x - a.1) / deX else -1
    let h2 := if ¬ _eq0 deY then ((a.2 - d.2) * v + y - a.2) / deY else -1
    let h := if 0 ≤ h1 ∧ h1 ≤ 1 then h1 else if 0 ≤ h2 ∧ h2 ≤ 1 then h2 else -1
    if h < 0 then Option.none else some (h, v)

/-- The body of the inner chroma loop of _interpolateHC: scan the chroma
buckets at one hue column; Option.none means the loop ended without a hit
(either by running out or by the a-and-b-null break). -/
def _interpHCInner (x y : ℝ) (vi h10_l h10_u : ℕ) : List ℕ → Option (ℕ × (ℝ × ℝ))
  | [] => Option.none
  | c_l :: rest =>
    let c_u := c_l + 2
    let a := _getXy vi h10_l c_l
    let d := _getXy vi h10_l c_u
    let b := _getXy vi h10_u c_l
    let c := _getXy vi h10_u c_u
    if a.isNone && b.isNone then Option.none
    else
      match a, b, c, d with
      | some a, some b, some c, some d =>
        let hv :=
          if a.1 = b.1 ∧ a.2 = b.2 then
            (if _isInside a c d x y then _interpolationRatio x y a d b c else Option.none)
          else
            (if _isInside a c d x y ∨ _isInside a b c x y then _interpolationRatio x y a d b c
             else Option.none)
        match hv with
        | some hv => some (c_l, hv)
        | none => _interpHCInner x y vi h10_l h10_u rest
      | _, _, _, _ => _interpHCInner x y vi h10_l h10_u rest

def _chromaList : List ℕ := (List.range 26).map (fun i => 2 * i)

def _hueList : List ℕ := (List.range 40).map (fun i => 25 * i)

/-- The outer hue loop of _interpolateHC; keeps the loop variables of the
break position. -/
def _interpHCOuter (x y : ℝ) (vi : ℕ) : List ℕ → Option (ℕ × ℕ × (ℝ × ℝ))
  | [] => Option.none
  | h10_l :: rest =>
    let h10_u := if h10_l + 25 = 1000 then 0 else h10_l + 25
    match _interpHCInner x y vi h10_l h10_u _chromaList with
    | some (c_l, hv) => some (h10_l, c_l, hv)
    | none => _interpHCOuter x y vi rest

/-- Munsell._interpolateHC: hue and chroma of the chromaticity (x, y) on the
lightness surface vi; (0, 0) when no containing cell is found. -/
def _interpolateHC (x y : ℝ) (vi : ℕ) : ℝ × ℝ :=
  match _interpHCOuter x y vi _hueList with
  | none => (0, 0)
  | some (h10_l, c_l, hv) =>
    let h10_u : ℕ := if h10_l + 25 = 1000 then 1000 else h10_l + 25
    let c_u : ℕ := c_l + 2
    ((((h10_u : ℝ) - (h10_l : ℝ)) * hv.1 + (h10_l : ℝ)) / 10,
     ((c_u : ℝ) - (c_l : ℝ)) * hv.2 + (c_l : ℝ))

/-- Munsell._y2v loop body, with fuel: the source iterates Newton steps with
no iteration cap, breaking only on the tolerance test and returning the
pre-step iterate; exhausted fuel returns the current iterate. -/
def _y2vGo (y : ℝ) : ℕ → ℝ → ℝ
  | 0, v => v
  | Nat.succ n, v =>
    let f := _v2y v * 100 - y * 100
    let fp := 3 * 0.0467 * (v * v) + 2 * 0.5602 * v - 0.1753
    let v1 := -f / fp + v
    if |v1 - v| < 0.01 then v else _y2vGo y n v1

/-- Munsell._y2v: closed form at or below 0.0121, else the Newton loop from 10. -/
def _y2v (fuel : ℕ) (y : ℝ) : ℝ :=
  if y ≤ 0.0121 then y / 0.0121 else _y2vGo y fuel 10

/-- Munsell._interpolateXY: (x, y) for Munsell hue h and chroma c at
lightness index vi, third component false when the chroma is beyond the
tabulated maximum (out of table). Option.none models the undefined-property
failures for arguments outside the table index ranges (unreachable from
toXYZ, whose guards keep h in [0, 100) and c at least the mono limit). -/
def _interpolateXY (h c : ℝ) (vi : ℕ) : Option (ℝ × ℝ × Bool) :=
  let h10 := h * 10
  let h10_lZ : ℤ := ⌊h10 / 25⌋ * 25
  let h10_uZ : ℤ := h10_lZ + 25
  let c_lZ : ℤ := ⌊c / 2⌋ * 2
  let c_uZ : ℤ := c_lZ + 2
  let rh := (h10 - (h10_lZ : ℝ)) / ((h10_uZ : ℝ) - (h10_lZ : ℝ))
  let rc := (c - (c_lZ : ℝ)) / ((c_uZ : ℝ) - (c_lZ : ℝ))
  let h10_uZ2 : ℤ := if h10_uZ = 1000 then 0 else h10_uZ
  if 0 ≤ h10_lZ ∧ h10_lZ ≤ 975 ∧ 0 ≤ c_lZ then
    let h10_l : ℕ := h10_lZ.toNat
    let h10_u : ℕ := h10_uZ2.toNat
    let c_l : ℕ := c_lZ.toNat
    let c_u : ℕ := c_l + 2
    let maxC_hl := _TBL_MAX_C vi (h10_l / 25)
    let maxC_hu := _TBL_MAX_C vi (h10_u / 25)
    if maxC_hl ≤ c_l ∨ maxC_hu ≤ c_l then
      let xy_hl :=
        if c_l < maxC_hl then
          (_getXy vi h10_l c_l).bind fun a => (_getXy vi h10_l c_u).map fun d =>
            ((d.1 - a.1) * rc + a.1, (d.2 - a.2) * rc + a.2)
        else _getXy vi h10_l maxC_hl
      let xy_hu :=
        if c_l < maxC_hu then
          (_getXy vi h10_u c_l).bind fun a => (_getXy vi h10_u c_u).map fun d =>
            ((d.1 - a.1) * rc + a.1, (d.2 - a.2) * rc + a.2)
        else _getXy vi h10_u maxC_hu
      xy_hl.bind fun pl => xy_hu.map fun pu =>
        ((pu.1 - pl.1) * rh + pl.1, (pu.2 - pl.2) * rh + pl.2, false)
    else if c_l = 0 then
      (_getXy vi h10_l c_u).bind fun d => (_getXy vi h10_u c_u).map fun cc =>
        let cd_x := (cc.1 - d.1) * rh + d.1
        let cd_y := (cc.2 - d.2) * rh + d.2
        ((cd_x - _ILLUMINANT_C.1) * rc + _ILLUMINANT_C.1,
         (cd_y - _ILLUMINANT_C.2) * rc + _ILLUMINANT_C.2, true)
    else
      (_getXy vi h10_l c_l).bind fun a => (_getXy vi h10_l c_u).bind fun d =>
      (_getXy vi h10_u c_l).bind fun b => (_getXy vi h10_u c_u).map fun cc =>
        let ab_x := (b.1 - a.1) * rh + a.1
        let ab_y := (b.2 - a.2) * rh + a.2
        let cd_x := (cc.1 - d.1) * rh + d.1
        let cd_y := (cc.2 - d.2) * rh + d.2
        ((cd_x - ab_x) * rc + ab_x, (cd_y - ab_y) * rc + ab_y, true)
  else Option.none

/-- Munsell.toXYZ: HVC to XYZ (value paired with the isSaturated flag the
call leaves behind). -/
def toXYZ (hvc : Vec3) : Option (Vec3 × Bool) :=
  let v := hvc.2.1
  let c := hvc.2.2
  let h := if _MAX_HUE ≤ hvc.1 then hvc.1 - _MAX_HUE else hvc.1
  let destY := _v2y v
  if _eq0 v ∨ h < 0 ∨ c < MONO_LIMIT_C then
    some (XYZ.fromIlluminantC (Yxy.toXYZ (destY, _ILLUMINANT_C.1, _ILLUMINANT_C.2)).1,
          decide (_eq0 v) && decide (0 < c))
  else if _TBL_V.getD (_TBL_V.length - 1) 0 ≤ v then
    (_interpolateXY h c (_TBL_V.length - 1)).map fun xy =>
      (XYZ.fromIlluminantC (Yxy.toXYZ (destY, xy.1, xy.2.1)).1,
       decide (_TBL_V.getD (_TBL_V.length - 1) 0 < v))
  else
    let viLZ : ℤ := ((_TBL_V.takeWhile (fun t => decide (t ≤ v))).length : ℤ) - 1
    let viU : ℕ := (viLZ + 1).toNat
    match _interpolateXY h c viU with
    | none => none
    | some xyU =>
      let v_h := _TBL_V.getD viU 0
      if viLZ = -1 then
        let r := (v - 0) / (v_h - 0)
        let x := (xyU.1 - _ILLUMINANT_C.1) * r + _ILLUMINANT_C.1
        let y := (xyU.2.1 - _ILLUMINANT_C.2) * r + _ILLUMINANT_C.2
        some (XYZ.fromIlluminantC (Yxy.toXYZ (destY, x, y)).1, true)
      else
        match _interpolateXY h c viLZ.toNat with
        | none => none
        | some xyL =>
          let v_l := _TBL_V.getD viLZ.toNat 0
          let r := (v - v_l) / (v_h - v_l)
          let x := (xyU.1 - xyL.1) * r + xyL.1
          let y := (xyU.2.1 - xyL.2.1) * r + xyL.2.1
          some (XYZ.fromIlluminantC (Yxy.toXYZ (destY, x, y)).1, !xyL.2.2 || !xyU.2.2)

/-- Munsell._yxy2mun: xyY under illuminant C to Munsell HVC. -/
def _yxy2mun (fuel : ℕ) (yxy : Vec3) : Vec3 :=
  let Y := yxy.1
  let x := yxy.2.1
  let y := yxy.2.2
  let v := _y2v fuel Y
  if _eq v (_TBL_V.getD (_TBL_V.length - 1) 0) then
    let hc := _interpolateHC x y (_TBL_V.length - 1)
    (hc.1, v, hc.2)
  else if _eq0 v ∨ _TBL_V.getD (_TBL_V.length - 1) 0 < v ∨
      (_eq x _ILLUMINANT_C.1 ∧ _eq y _ILLUMINANT_C.2) then
    (0, v, 0)
  else
    let viLZ : ℤ := ((_TBL_V.takeWhile (fun t => decide (t ≤ v))).length : ℤ) - 1
    let viU : ℕ := (viLZ + 1).toNat
    let hc_u := _interpolateHC x y viU
    let hc_l := if viLZ = -1 then (hc_u.1, 0) else _interpolateHC x y viLZ.toNat
    let v_l : ℝ := if viLZ = -1 then 0 else _TBL_V.getD viLZ.toNat 0
    let v_h := _TBL_V.getD viU 0
    let r := (v - v_l) / (v_h - v_l)
    let h0 := (hc_u.1 - hc_l.1) * r + hc_l.1
    let h := if _MAX_HUE ≤ h0 then h0 - _MAX_HUE else h0
    let c0 := (hc_u.2 - hc_l.2) * r + hc_l.2
    let c := if c0 < MONO_LIMIT_C then 0 else c0
    (h, v, c)

/-- Munsell.fromXYZ: XYZ (D65) to Munsell HVC. -/
def fromXYZ (fuel : ℕ) (xyz : Vec3) : Vec3 :=
  _yxy2mun fuel (Yxy.fromXYZ (XYZ.toIlluminantC xyz))

end Munsell

/-- JS "0 | x" as an integer: truncation toward zero. -/
def jsTruncInt (x : ℝ) : ℤ := if 0 ≤ x then ⌊x⌋ else -⌊-x⌋

namespace Munsell

/-- Munsell.hueValueToHueName; fmt stands for the JS number-to-string
conversion used by the template literal. -/
def hueValueToHueName (fmt : ℝ → String) (hue chroma : ℝ) : String :=
  if hue = -1 ∨ _eq0 chroma then "N"
  else
    let hue2 := if hue ≤ 0 then hue + _MAX_HUE else hue
    let h10_0 : ℤ := jsTruncInt (hue2 * 10) % 100
    let c0 : ℤ := jsTruncInt (hue2 / 10)
    let h10 : ℤ := if h10_0 = 0 then 100 else h10_0
    let c : ℤ := if h10_0 = 0 then c0 - 1 else c0
    fmt (jsRound ((h10 : ℝ) * 10) / 100) ++
      (if c < 0 then "undefined" else (_HUE_NAMES.get? c.toNat).getD "undefined")

/-- Munsell.toString; fmt stands for the JS number-to-string conversion used
by the template literals. -/
def toString (fmt : ℝ → String) (hvc : Vec3) : String :=
  let vstr := jsRound (hvc.2.1 * 10) / 10
  if hvc.2.2 < MONO_LIMIT_C then "N " ++ fmt vstr
  else
    let hue := hueValueToHueName fmt hvc.1 hvc.2.2
    let cstr := jsRound (hvc.2.2 * 10) / 10
    hue ++ " " ++ fmt vstr ++ "/" ++ fmt cstr

/-! NaN-aware model of the _y2v Newton loop, for the termination claim.
JS numbers are modelled as Option real with Option.none for NaN: arithmetic
propagates NaN and every comparison with NaN is false, so the loop's only
exit test never fires once an iterate is NaN. -/

/-- One Newton update of the _y2v loop on possibly-NaN values. -/
def _y2vStep (y v : Option ℝ) : Option ℝ :=
  match y, v with
  | some yr, some vr =>
    let f := _v2y vr * 100 - yr * 100
    let fp := 3 * 0.0467 * (vr * vr) + 2 * 0.5602 * vr - 0.1753
    some (-f / fp + vr)
  | _, _ => Option.none

/-- The break test of the _y2v loop: |v1 - v| < 0.01, false when either
value is NaN (IEEE comparisons with NaN are false). -/
def _y2vBreak (y v : Option ℝ) : Bool :=
  match _y2vStep y v, v with
  | some v1, some vr => decide (|v1 - vr| < 0.01)
  | _, _ => false

/-- The iterates of the _y2v loop, which starts at v = 10. -/
def _y2vSeq (y : Option ℝ) : ℕ → Option ℝ
  | 0 => some 10
  | n + 1 => _y2vStep y (_y2vSeq y n)

/-- The _y2v loop terminates on input y when some iterate passes the break
test (there is no other way out of the while-true loop in the source). -/
def _y2vLoopTerminates (y : Option ℝ) : Prop :=
  ∃ n, _y2vBreak y (_y2vSeq y n) = true

/-- Munsell._y2v terminates: either the closed-form guard y <= 0.0121 fires
(false for NaN input), or the Newton loop terminates. -/
def _y2vTerminates (y : Option ℝ) : Prop :=
  match y with
  | some yr => yr ≤ 0.0121 ∨ _y2vLoopTerminates (some yr)
  | none => _y2vLoopTerminates Option.none

end Munsell

/-! ### Claims about the Munsell engine (C7, C1) -/

lemma toXYZ_achromatic (h v c : ℝ) (hc : c < Munsell.MONO_LIMIT_C) :
    Munsell.toXYZ (h, v, c) =
      some (XYZ.fromIlluminantC
              (Yxy.toXYZ (Munsell._v2y v, Munsell._ILLUMINANT_C.1, Munsell._ILLUMINANT_C.2)).1,
            decide (Munsell._eq0 v) && decide (0 < c)) := by
  simp only [Munsell.toXYZ]
  rw [if_pos (Or.inr (Or.inr hc))]

/-- C7: chroma 0 makes the hue irrelevant in Munsell.toXYZ (the achromatic
branch ignores the hue entirely), and Munsell.toString renders any triple
with chroma 0.01 in the neutral N form. -/
theorem claim_C7 :
    (∀ h1 h2 v : ℝ, Munsell.toXYZ (h1, v, 0) = Munsell.toXYZ (h2, v, 0)) ∧
    (∀ (fmt : ℝ → String) (h v : ℝ),
      Munsell.toString fmt (h, v, 0.01) = "N " ++ fmt (jsRound (v * 10) / 10)) := by
  constructor
  · intro h1 h2 v
    rw [toXYZ_achromatic h1 v 0 (by norm_num [Munsell.MONO_LIMIT_C]),
        toXYZ_achromatic h2 v 0 (by norm_num [Munsell.MONO_LIMIT_C])]
  · intro fmt h v
    simp only [Munsell.toString]
    rw [if_pos (by norm_num [Munsell.MONO_LIMIT_C])]

/-- C1: the source loops of Munsell._y2v (and PCCS._solveEquation) have no
hard iteration cap; the only exit is the tolerance test, and on NaN input
the test never fires, so the loop never terminates. This evaluates the
embedded loop at the failing input Y = NaN. -/
theorem claim_C1 : ¬ Munsell._y2vTerminates Option.none := by
  have hstep : ∀ v, Munsell._y2vStep Option.none v = Option.none := by
    intro v
    cases v <;> rfl
  have hbreak : ∀ v, Munsell._y2vBreak Option.none v = false := by
    intro v
    unfold Munsell._y2vBreak
    rw [hstep]
  intro hterm
  rcases hterm with ⟨n, hn⟩
  rw [hbreak] at hn
  exact Bool.false_ne_true hn

/-! ### The PCCS engine -/

namespace PCCS

def _MIN_HUE : ℝ := 0

def _MAX_HUE : ℝ := 24

def _MONO_LIMIT_S : ℝ := 0.01

def _MUNSELL_H : List ℝ :=
  [96,
   0, 4, 7, 10, 14, 18, 22, 25, 28, 33, 38, 43,
   49, 55, 60, 65, 70, 73, 76, 79, 83, 87, 91, 96, 100]

def _COEFFICIENTS : List (ℝ × ℝ × ℝ) :=
  [(0.853642, 0.084379, -0.002798),
   (1.042805, 0.046437, 0.001607),
   (1.079160, 0.025470, 0.003052),
   (1.039472, 0.054749, -0.000511),
   (0.925185, 0.050245, 0.000953),
   (0.968557, 0.012537, 0.003375),
   (1.070433, -0.047359, 0.007385),
   (1.087030, -0.051075, 0.006526),
   (1.089652, -0.050206, 0.006056),
   (0.880861, 0.060300, -0.001280),
   (0.897326, 0.053912, -0.000860),
   (0.887834, 0.055086, -0.000847),
   (0.853642, 0.084379, -0.002798)]

/-- Indexing _MUNSELL_H as JS does: a negative or too large index is
undefined (Option.none), which poisons the arithmetic with NaN. -/
def _MUNSELL_H_get (i : ℤ) : Option ℝ :=
  if 0 ≤ i then _MUNSELL_H.get? i.toNat else Option.none

/-- Indexing _COEFFICIENTS as JS does. -/
def _COEFFICIENTS_get (i : ℤ) : Option (ℝ × ℝ × ℝ) :=
  if 0 ≤ i then _COEFFICIENTS.get? i.toNat else Option.none

/-- The scan of PCCS._calcPccsH over indices 1..24: h1 is updated whenever
_MUNSELL_H[i] <= H, and the loop breaks with h2 = i at the first i with
H < _MUNSELL_H[i]. -/
def _pccsHLoop (H : ℝ) (h1 : ℤ) : List ℕ → ℤ × ℤ
  | [] => (h1, -1)
  | i :: rest =>
    let h1a := if _MUNSELL_H.getD i 0 ≤ H then (i : ℤ) else h1
    if H < _MUNSELL_H.getD i 0 then (h1a, (i : ℤ))
    else _pccsHLoop H h1a rest

/-- PCCS._calcPccsH (accurate): piecewise-linear inverse of the 25 Munsell
hue breakpoints; when either bracket index stays -1 the source formula reads
an undefined entry and the result is NaN (Option.none). -/
def _calcPccsH (H : ℝ) : Option ℝ :=
  let p := _pccsHLoop H (-1) ((List.range 24).map (fun i => i + 1))
  if p.1 = -1 ∨ p.2 = -1 then Option.none
  else
    let H1 := _MUNSELL_H.getD p.1.toNat 0
    let H2 := _MUNSELL_H.getD p.2.toNat 0
    some ((p.1 : ℝ) + ((p.2 : ℝ) - (p.1 : ℝ)) * (H - H1) / (H2 - H1))

/-- PCCS._calcInterpolatedCoefficients: the (a1, a2, a3) coefficient triple
linearly interpolated between the even-hue entries; Option.none models the
NaN arising from an out-of-range (negative) coefficient index. -/
def _calcInterpolatedCoefficients (h : ℝ) : Option (ℝ × ℝ × ℝ) :=
  let h2 := if _MAX_HUE < h then h - _MAX_HUE else h
  let hf0 : ℤ := ⌊h2⌋
  let hf := if hf0 % 2 ≠ 0 then hf0 - 1 else hf0
  let hc0 := hf + 2
  let hc := if _MAX_HUE < (hc0 : ℝ) then hc0 - 24 else hc0
  (_COEFFICIENTS_get (hf / 2)).bind fun af => (_COEFFICIENTS_get (hc / 2)).map fun ac =>
    let r := (h2 - (hf : ℝ)) / ((hc : ℝ) - (hf : ℝ))
    (r * (ac.1 - af.1) + af.1,
     r * (ac.2.1 - af.2.1) + af.2.1,
     r * (ac.2.2 - af.2.2) + af.2.2)

/-- PCCS._solveEquation loop body, with fuel: the source iterates Newton
steps on the cubic with no iteration cap, breaking only on the tolerance
test; exhausted fuel returns the current iterate. -/
def _solveEqGo (a3 a2 a1 a0 : ℝ) : ℕ → ℝ → ℝ
  | 0, x => x
  | Nat.succ n, x =>
    let y := a3 * x * x * x + a2 * x * x + a1 * x + a0
    let yp := 3 * a3 * x * x + 2 * a2 * x + a1
    let x1 := -y / yp + x
    if |x1 - x| < 0.001 then x else _solveEqGo a3 a2 a1 a0 n x1

/-- PCCS._solveEquation with fuel. -/
def _solveEquation (fuel : ℕ) (x0 a3 a2 a1 a0 : ℝ) : ℝ :=
  _solveEqGo a3 a2 a1 a0 fuel x0

/-- PCCS._simplyCalcPccsS (concise saturation, quadratic formula). Where the
discriminant is negative the source produces NaN; Real.sqrt returns 0 there
(that region is not relied on by any claim). -/
def _simplyCalcPccsS (V C h : ℝ) : ℝ :=
  let Ct := 12 + 1.7 * Real.sin ((h + 2.2) * Real.pi / 12)
  let gt := 0.81 - 0.24 * Real.sin ((h - 2.6) * Real.pi / 12)
  let e2 : ℝ := 0.004
  let e1 : ℝ := 0.077
  let e0 := -C / (Ct * (1 - Real.exp (-gt * V)))
  (-e1 + Real.sqrt (e1 * e1 - 4 * e2 * e0)) / (2 * e2)

/-- PCCS._calcPccsS (accurate saturation: Newton on the interpolated cubic). -/
def _calcPccsS (fuel : ℕ) (V C h : ℝ) : Option ℝ :=
  (_calcInterpolatedCoefficients h).map fun a =>
    let g := 0.81 - 0.24 * Real.sin ((h - 2.6) / 12 * Real.pi)
    let a0 := -C / (1 - Real.exp (-g * V))
    _solveEquation fuel (_simplyCalcPccsS V C h) a.2.2 a.2.1 a.1 a0

/-- PCCS._simplyCalcPccsH (concise hue). -/
def _simplyCalcPccsH (H : ℝ) : ℝ :=
  let y := H * Real.pi / 50
  24 * y / (2 * Real.pi) + 1.24
    + 0.02 * Real.cos y - 0.1 * Real.cos (2 * y) - 0.11 * Real.cos (3 * y)
    + 0.68 * Real.sin y - 0.3 * Real.sin (2 * y) + 0.013 * Real.sin (3 * y)

/-- PCCS._calcMunsellH (accurate): inverse piecewise-linear hue map. -/
def _calcMunsellH (h : ℝ) : Option ℝ :=
  let h1 : ℤ := ⌊h⌋
  let h2 := h1 + 1
  (_MUNSELL_H_get h1).bind fun H1 => (_MUNSELL_H_get h2).map fun H2_0 =>
    let H2 := if H1 > H2_0 then 100 else H2_0
    H1 + (H2 - H1) * (h - (h1 : ℝ)) / ((h2 : ℝ) - (h1 : ℝ))

/-- PCCS._simplyCalcMunsellH (concise). -/
def _simplyCalcMunsellH (h : ℝ) : ℝ :=
  let x := (h - 1) * Real.pi / 12
  100 * x / (2 * Real.pi) - 1
    + 0.12 * Real.cos x + 0.34 * Real.cos (2 * x) + 0.4 * Real.cos (3 * x)
    - 2.7 * Real.sin x + 1.5 * Real.sin (2 * x) - 0.4 * Real.sin (3 * x)

/-- PCCS._calcMunsellC (accurate). -/
def _calcMunsellC (h l s : ℝ) : Option ℝ :=
  (_calcInterpolatedCoefficients h).map fun a =>
    let g := 0.81 - 0.24 * Real.sin ((h - 2.6) / 12 * Real.pi)
    (a.2.2 * s * s * s + a.2.1 * s * s + a.1 * s) * (1 - Real.exp (-g * l))

/-- PCCS._simplyCalcMunsellC (concise). -/
def _simplyCalcMunsellC (h l s : ℝ) : ℝ :=
  let Ct := 12 + 1.7 * Real.sin ((h + 2.2) * Real.pi / 12)
  let gt := 0.81 - 0.24 * Real.sin ((h - 2.6) * Real.pi / 12)
  Ct * (0.077 * s + 0.0040 * s * s) * (1 - Real.exp (-gt * l))

/-- The two conversion strategies selectable through PCCS.conversionMethod. -/
inductive ConversionMethod where
  | concise : ConversionMethod
  | accurate : ConversionMethod

/-- PCCS.conversionMethod default: ACCURATE. -/
def conversionMethod : ConversionMethod := ConversionMethod.accurate

/-- PCCS.fromMunsell. The leading wraparound "if (Munsell.MAX_HUE <= H)"
reads the undefined property Munsell.MAX_HUE (the defined constant is
Munsell._MAX_HUE), and a comparison with undefined is always false, so that
statement never fires and is omitted here. -/
def fromMunsell (fuel : ℕ) (method : ConversionMethod) (hvc : Vec3) : Option Vec3 :=
  let H := hvc.1
  let V := hvc.2.1
  let C := hvc.2.2
  let hopt : Option ℝ :=
    match method with
    | ConversionMethod.accurate => _calcPccsH H
    | ConversionMethod.concise => some (_simplyCalcPccsH H)
  hopt.bind fun h =>
    let sopt : Option ℝ :=
      if Munsell.MONO_LIMIT_C ≤ C then
        match method with
        | ConversionMethod.accurate => _calcPccsS fuel V C h
        | ConversionMethod.concise => some (_simplyCalcPccsS V C h)
      else some 0
    sopt.map fun s =>
      ((if _MAX_HUE ≤ h then h - _MAX_HUE else h), V, s)

/-- PCCS.toMunsell. After computing H the source runs
"if (H < 0) H += Munsell.MAX_HUE": Munsell.MAX_HUE is an undefined property
(the defined constant is Munsell._MAX_HUE), so a negative H becomes NaN
(Option.none); the following "if (Munsell.MAX_HUE <= H)" compares with
undefined and never fires. The CONCISE method record also binds the key
_calcMunsellS instead of _calcMunsellC, so under the concise method a
saturation at or above the mono limit calls undefined and throws
(Option.none). -/
def toMunsell (method : ConversionMethod) (hls : Vec3) : Option Vec3 :=
  let h := hls.1
  let l := hls.2.1
  let s := hls.2.2
  let Hopt : Option ℝ :=
    match method with
    | ConversionMethod.accurate => _calcMunsellH h
    | ConversionMethod.concise => some (_simplyCalcMunsellH h)
  let Copt : Option ℝ :=
    if _MONO_LIMIT_S ≤ s then
      match method with
      | ConversionMethod.accurate => _calcMunsellC h l s
      | ConversionMethod.concise => Option.none
    else some 0
  Hopt.bind fun H0 =>
    if H0 < 0 then Option.none
    else Copt.map fun C => (H0, l, C)

end PCCS

/-! ### Claim about PCCS.toMunsell (C8) -/

/-- C8 (code evaluated at the failing input): with the concise conversion
method, PCCS.toMunsell([1, 5, 0]) computes the concise Munsell hue
-0.14 (negative), and the wraparound statement adds the undefined property
Munsell.MAX_HUE, so the hue component becomes NaN instead of a real number
in [0, 100). -/
theorem claim_C8 : PCCS.toMunsell PCCS.ConversionMethod.concise (1, 5, 0) = Option.none := by
  have hH : PCCS._simplyCalcMunsellH 1 = -0.14 := by
    simp only [PCCS._simplyCalcMunsellH]
    norm_num [Real.cos_zero, Real.sin_zero]
  simp only [PCCS.toMunsell, hH]
  norm_num

/-! ### The VISION evaluation methods (color difference, categorical colors) -/

/-- JS Math.atan2 (full-quadrant arctangent; the IEEE signed-zero subtleties
at the axes are not distinguished). -/
def jsAtan2 (y x : ℝ) : ℝ :=
  if 0 < x then Real.arctan (y / x)
  else if x < 0 ∧ 0 ≤ y then Real.arctan (y / x) + Real.pi
  else if x < 0 ∧ y < 0 then Real.arctan (y / x) - Real.pi
  else if x = 0 ∧ 0 < y then Real.pi / 2
  else if x = 0 ∧ y < 0 then -(Real.pi / 2)
  else 0

namespace Evaluation

/-- The sin helper of CIEDE2000 (argument in degrees). -/
def sinDeg (d : ℝ) : ℝ := Real.sin (d * Real.pi / 180)

/-- The cos helper of CIEDE2000 (argument in degrees). -/
def cosDeg (d : ℝ) : ℝ := Real.cos (d * Real.pi / 180)

/-- The atan helper of CIEDE2000: atan2 in degrees normalized to [0, 360). -/
def atanDeg (y x : ℝ) : ℝ :=
  let v := jsAtan2 y x * 180 / Real.pi
  if v < 0 then v + 360 else v

/-- The hue-difference computation of CIEDE2000 (the Dhp cascade). -/
def _dhp (Cp1 Cp2 hp1 hp2 : ℝ) : ℝ :=
  if Cp1 * Cp2 < 1e-10 then 0
  else if |hp2 - hp1| ≤ 180 then hp2 - hp1
  else if hp2 - hp1 > 180 then (hp2 - hp1) - 360
  else if hp2 - hp1 < -180 then (hp2 - hp1) + 360
  else 0

/-- The mean-hue computation of CIEDE2000 (the hbp cascade). -/
def _hbp (Cp1 Cp2 hp1 hp2 : ℝ) : ℝ :=
  if Cp1 * Cp2 < 1e-10 then hp1 + hp2
  else if |hp2 - hp1| ≤ 180 then (hp1 + hp2) / 2
  else if |hp2 - hp1| > 180 ∧ hp1 + hp2 < 360 then (hp1 + hp2 + 360) / 2
  else if |hp2 - hp1| > 180 ∧ hp1 + hp2 ≥ 360 then (hp1 + hp2 - 360) / 2
  else 0

/-- The remainder of CIEDE2000 once L, C-prime and h-prime of both colors
are known (the source lines from DLp to the final DE). -/
def _tail (ls1 ls2 Cp1 Cp2 hp1 hp2 : ℝ) : ℝ :=
  let DLp := ls2 - ls1
  let DCp := Cp2 - Cp1
  let Dhp := _dhp Cp1 Cp2 hp1 hp2
  let DHp := 2 * Real.sqrt (Cp1 * Cp2) * sinDeg (Dhp / 2)
  let Lbp := (ls1 + ls2) / 2
  let Cbp := (Cp1 + Cp2) / 2
  let hbp := _hbp Cp1 Cp2 hp1 hp2
  let T := 1 - 0.17 * cosDeg (hbp - 30) + 0.24 * cosDeg (2 * hbp)
             + 0.32 * cosDeg (3 * hbp + 6) - 0.2 * cosDeg (4 * hbp - 63)
  let Dth := 30 * Real.exp (-(((hbp - 275) / 25) * ((hbp - 275) / 25)))
  let RC := 2 * Real.sqrt (Cbp ^ (7:ℕ) / (Cbp ^ (7:ℕ) + 25 ^ (7:ℕ)))
  let SL := 1 + 0.015 * ((Lbp - 50) * (Lbp - 50)) / Real.sqrt (20 + (Lbp - 50) * (Lbp - 50))
  let SC := 1 + 0.045 * Cbp
  let SH := 1 + 0.015 * Cbp * T
  let RT := -(sinDeg (2 * Dth)) * RC
  let kL : ℝ := 1
  let kC : ℝ := 1
  let kH : ℝ := 1
  Real.sqrt ((DLp / (kL * SL)) * (DLp / (kL * SL)) + (DCp / (kC * SC)) * (DCp / (kC * SC))
    + (DHp / (kH * SH)) * (DHp / (kH * SH)) + RT * (DCp / (kC * SC)) * (DHp / (kH * SH)))

/-- The G weighting factor of CIEDE2000, from the two chromas. -/
def _G (C1 C2 : ℝ) : ℝ :=
  0.5 * (1 - Real.sqrt (((C1 + C2) / 2) ^ (7:ℕ) / (((C1 + C2) / 2) ^ (7:ℕ) + 25 ^ (7:ℕ))))

/-- Evaluation.CIEDE2000. -/
def CIEDE2000 (lab1 lab2 : Vec3) : ℝ :=
  let C1 := Real.sqrt (lab1.2.1 * lab1.2.1 + lab1.2.2 * lab1.2.2)
  let C2 := Real.sqrt (lab2.2.1 * lab2.2.1 + lab2.2.2 * lab2.2.2)
  let G := _G C1 C2
  let ap1 := (1 + G) * lab1.2.1
  let ap2 := (1 + G) * lab2.2.1
  let Cp1 := Real.sqrt (ap1 * ap1 + lab1.2.2 * lab1.2.2)
  let Cp2 := Real.sqrt (ap2 * ap2 + lab2.2.2 * lab2.2.2)
  let hp1 := if lab1.2.2 = 0 ∧ ap1 = 0 then 0 else atanDeg lab1.2.2 ap1
  let hp2 := if lab2.2.2 = 0 ∧ ap2 = 0 then 0 else atanDeg lab2.2.2 ap2
  _tail lab1.1 lab2.1 Cp1 Cp2 hp1 hp2

end Evaluation

/-! ### Claim C4: symmetry of CIEDE2000 -/

lemma G_swap (C1 C2 : ℝ) : Evaluation._G C2 C1 = Evaluation._G C1 C2 := by
  unfold Evaluation._G
  rw [add_comm C2 C1]

lemma sinDeg_neg (d : ℝ) : Evaluation.sinDeg (-d) = -Evaluation.sinDeg d := by
  unfold Evaluation.sinDeg
  rw [neg_mul, neg_div, Real.sin_neg]

lemma dhp_swap (Cp1 Cp2 hp1 hp2 : ℝ) :
    Evaluation._dhp Cp2 Cp1 hp2 hp1 = -Evaluation._dhp Cp1 Cp2 hp1 hp2 := by
  unfold Evaluation._dhp
  have h1e : (Cp2 * Cp1 < 1e-10) ↔ (Cp1 * Cp2 < 1e-10) := by rw [mul_comm]
  by_cases h1 : Cp1 * Cp2 < 1e-10
  · rw [if_pos h1, if_pos (h1e.mpr h1)]
    norm_num
  · rw [if_neg h1, if_neg (fun h => h1 (h1e.mp h))]
    by_cases h2 : |hp2 - hp1| ≤ 180
    · have h2a : |hp1 - hp2| ≤ 180 := by rwa [abs_sub_comm]
      rw [if_pos h2, if_pos h2a]
      ring
    · have h2a : ¬ |hp1 - hp2| ≤ 180 := by rwa [abs_sub_comm]
      rw [if_neg h2, if_neg h2a]
      by_cases h3 : hp2 - hp1 > 180
      · have h3a : ¬ (hp1 - hp2 > 180) := by simp only [not_lt]; linarith
        have h4a : hp1 - hp2 < -180 := by linarith
        rw [if_pos h3, if_neg h3a, if_pos h4a]
        ring
      · by_cases h4 : hp2 - hp1 < -180
        · have h3a : hp1 - hp2 > 180 := by linarith
          rw [if_neg h3, if_pos h4, if_pos h3a]
          ring
        · exfalso
          apply h2
          rw [abs_le]
          constructor <;> linarith [not_lt.mp h3, not_lt.mp h4]

lemma hbp_swap (Cp1 Cp2 hp1 hp2 : ℝ) :
    Evaluation._hbp Cp2 Cp1 hp2 hp1 = Evaluation._hbp Cp1 Cp2 hp1 hp2 := by
  unfold Evaluation._hbp
  have h1e : (Cp2 * Cp1 < 1e-10) ↔ (Cp1 * Cp2 < 1e-10) := by rw [mul_comm]
  have habs : |hp1 - hp2| = |hp2 - hp1| := abs_sub_comm hp1 hp2
  have hsum : hp2 + hp1 = hp1 + hp2 := add_comm hp2 hp1
  by_cases h1 : Cp1 * Cp2 < 1e-10
  · rw [if_pos (h1e.mpr h1), if_pos h1]
    ring
  · rw [if_neg (fun h => h1 (h1e.mp h)), if_neg h1]
    by_cases h2 : |hp2 - hp1| ≤ 180
    · have h2a : |hp1 - hp2| ≤ 180 := by rwa [abs_sub_comm]
      rw [if_pos h2a, if_pos h2]
      ring
    · have h2a : ¬ |hp1 - hp2| ≤ 180 := by rwa [abs_sub_comm]
      rw [if_neg h2a, if_neg h2]
      by_cases h3 : hp1 + hp2 < 360
      · have l3 : |hp1 - hp2| > 180 ∧ hp2 + hp1 < 360 :=
          ⟨by rw [habs]; exact not_le.mp h2, by rw [hsum]; exact h3⟩
        have r3 : |hp2 - hp1| > 180 ∧ hp1 + hp2 < 360 := ⟨not_le.mp h2, h3⟩
        rw [if_pos l3, if_pos r3]
        ring
      · have hge : hp1 + hp2 ≥ 360 := not_lt.mp h3
        have l3 : ¬ (|hp1 - hp2| > 180 ∧ hp2 + hp1 < 360) := by
          rintro ⟨-, hlt⟩
          rw [hsum] at hlt
          exact h3 hlt
        have r3 : ¬ (|hp2 - hp1| > 180 ∧ hp1 + hp2 < 360) := by
          rintro ⟨-, hlt⟩
          exact h3 hlt
        have l4 : |hp1 - hp2| > 180 ∧ hp2 + hp1 ≥ 360 :=
          ⟨by rw [habs]; exact not_le.mp h2, by rw [hsum]; exact hge⟩
        have r4 : |hp2 - hp1| > 180 ∧ hp1 + hp2 ≥ 360 := ⟨not_le.mp h2, hge⟩
        rw [if_neg l3, if_neg r3, if_pos l4, if_pos r4]
        ring

lemma tail_swap (ls1 ls2 Cp1 Cp2 hp1 hp2 : ℝ) :
    Evaluation._tail ls2 ls1 Cp2 Cp1 hp2 hp1 = Evaluation._tail ls1 ls2 Cp1 Cp2 hp1 hp2 := by
  simp only [Evaluation._tail]
  rw [dhp_swap, hbp_swap, mul_comm Cp2 Cp1]
  rw [show -Evaluation._dhp Cp1 Cp2 hp1 hp2 / 2 = -(Evaluation._dhp Cp1 Cp2 hp1 hp2 / 2) by ring]
  rw [sinDeg_neg]
  ring_nf

/-- C4: the CIEDE2000 color difference is symmetric in its two Lab
arguments, the branch cascades for the hue difference and the mean hue
included. -/
theorem claim_C4 : ∀ lab1 lab2 : Vec3, Evaluation.CIEDE2000 lab1 lab2 = Evaluation.CIEDE2000 lab2 lab1 := by
  intro lab1 lab2
  simp only [Evaluation.CIEDE2000]
  rw [G_swap (Real.sqrt (lab1.2.1 * lab1.2.1 + lab1.2.2 * lab1.2.2))
        (Real.sqrt (lab2.2.1 * lab2.2.1 + lab2.2.2 * lab2.2.2))]
  exact (tail_swap lab1.1 lab2.1 _ _ _ _).symm

/-! ### Categorical color classification -/

/-- JS Number.MAX_VALUE. -/
def NUMBER_MAX_VALUE : ℝ := 1.7976931348623157e308

namespace Evaluation

def CATEGORICAL_COLORS : List String :=
  ["white", "black", "red", "green",
   "yellow", "blue", "brown", "purple",
   "pink", "orange", "gray"]

def _Y_TO_LUM : ℝ := 60

def _LUM_TABLE : List ℝ := [2, 5, 10, 20, 30, 40]

def _CC_STR_2 : String := "...................5.................557................557...............55777.............55.777............55577777...........55577777..........5557777777........55511..6767.......333.116666666......3331.666666.......3333116666........33331116...........33333.............3333..............33..................................................................................."

def _CC_STR_5 : String := "5..................55................557...............55777..............55777.............5577777...........555777777.........5557777777.........55a77777777.......555aa77777727.....555aaa66666666....3353aa666666666...33333a6666666......33333366666.......333333366.........33333333..........333333.............3333..............33................3.............................."

def _CC_STR_10 : String := "5..................57................557...............55777..............557777............5577777...........555777777.........55577777788.......555aa777..88.......555aa77...222.....555aa.68668.222...5333aa666666999...33333a66666699....3333333666666......3333333666........333333336.........3333333...........333333.............333...............33................3............"

def _CC_STR_20 : String := ".......................................77..............55777..............557777............557777............557777788.........55577778888.......555577.88888.......555.78888888......555aa.8888882.....5533.a888999999...33333366999999....3333333669999......33333334.99.......333333344.........33333333..........333333............33333..............33................3............"

def _CC_STR_30 : String := "..........................................................................5.77..............55777.............55777.............55577.8...........55557788...........55557888..........555508888.........3535348888........33333449999.......333333449999.......33333344449.......333333444.........33333334..........333333............33333..............333...............3............"

def _CC_STR_40 : String := "..............................................................................................77..............55577.............55577.............555578.............5550.8............5555088...........5333008...........35333449..........333333444..........333334444.........333333444.........33333344..........3333333...........33333..............333...............3............"

/-- Evaluation._CC_TABLE: the luminance-keyed object of occupancy strings. -/
def _CC_TABLE (l : ℝ) : Option String :=
  if l = 2 then some _CC_STR_2
  else if l = 5 then some _CC_STR_5
  else if l = 10 then some _CC_STR_10
  else if l = 20 then some _CC_STR_20
  else if l = 30 then some _CC_STR_30
  else if l = 40 then some _CC_STR_40
  else Option.none

/-- The compressed luminance (y * 60) ^ 0.9 of categoryOfYxy; Math.pow of a
negative base with the non-integer exponent 0.9 is NaN (Option.none). -/
def _lum (y : ℝ) : Option ℝ :=
  if y * _Y_TO_LUM < 0 then Option.none else some ((y * _Y_TO_LUM) ^ (0.9 : ℝ))

/-- The nearest-luminance loop of categoryOfYxy; a NaN luminance never
passes the comparison, so the accumulator is returned unchanged. -/
def _lumLoop : Option ℝ → List ℝ → ℝ × ℝ → ℝ × ℝ
  | _, [], acc => acc
  | Option.none, _ :: rest, acc => _lumLoop Option.none rest acc
  | some lv, l :: rest, (diff, clum) =>
    let d := |lv - l|
    if d < diff then _lumLoop (some lv) rest (d, l)
    else _lumLoop (some lv) rest (diff, clum)

/-- The nearest-occupied-cell loop of categoryOfYxy over the 18 x 21 grid
(sx and sy arrive already scaled by 1000). -/
def _cellLoop (sx sy : ℝ) (t : List Char) : List ℕ → ℝ × Char → ℝ × Char
  | [], acc => acc
  | i :: rest, (dis, cc) =>
    match t.get? i with
    | Option.none => _cellLoop sx sy t rest (dis, cc)
    | some ch =>
      if ch = '.' then _cellLoop sx sy t rest (dis, cc)
      else
        let x : ℝ := ((i % 18 : ℕ) : ℝ) * 25 + 150
        let y : ℝ := ((i / 18 : ℕ) : ℝ) * 25 + 75
        let d := Real.sqrt ((sx - x) * (sx - x) + (sy - y) * (sy - y))
        if d < dis then _cellLoop sx sy t rest (d, ch)
        else _cellLoop sx sy t rest (dis, cc)

/-- Evaluation.categoryOfYxy. The source initializes cc to the number 1,
whose parseInt equals that of the character 1, so the initial accumulator is
the character 1 here; Option.none models the thrown TypeError when no
luminance bucket was selected (the table lookup is undefined) and the
undefined result of an out-of-range color index. -/
def categoryOfYxy (yxy : Vec3) : Option String :=
  let lum := _lum yxy.1
  let p := _lumLoop lum _LUM_TABLE (NUMBER_MAX_VALUE, 0)
  match _CC_TABLE p.2 with
  | Option.none => Option.none
  | some t =>
    let sx := yxy.2.1 * 1000
    let sy := yxy.2.2 * 1000
    let q := _cellLoop sx sy t.data (List.range (18 * 21)) (NUMBER_MAX_VALUE, '1')
    let ci : Option ℕ :=
      if q.2 = 'a' then some 10
      else if q.2.isDigit then some (q.2.toNat - 48)
      else Option.none
    ci.bind fun i => CATEGORICAL_COLORS.get? i

end Evaluation

/-! ### Claim C9: totality of the categorical classifier -/

/-- C9 (counterexample): at the finite real input Yxy = (-1, 0.3, 0.3) the
compressed luminance (y*60)^0.9 is NaN (negative base), every nearest-bucket
comparison is false, the luminance bucket stays 0, and the table access
_CC_TABLE[0] is undefined, so the subsequent indexing throws instead of
returning one of the 11 names. -/
theorem claim_C9_counterexample : Evaluation.categoryOfYxy (-1, 0.3, 0.3) = Option.none := by
  have hlum : Evaluation._lum (-1) = Option.none := by
    rw [Evaluation._lum, if_pos]
    norm_num [Evaluation._Y_TO_LUM]
  have hloop : ∀ (ls : List ℝ) (acc : ℝ × ℝ), Evaluation._lumLoop Option.none ls acc = acc := by
    intro ls
    induction ls with
    | nil => intro acc; rfl
    | cons l rest ih => intro acc; rw [Evaluation._lumLoop]; exact ih acc
  simp only [Evaluation.categoryOfYxy, hlum, hloop]
  norm_num [Evaluation._CC_TABLE]

lemma lumLoop_mem (lv : ℝ) (ls : List ℝ) : ∀ dd cc : ℝ,
    (Evaluation._lumLoop (some lv) ls (dd, cc)).2 = cc ∨
      (Evaluation._lumLoop (some lv) ls (dd, cc)).2 ∈ ls := by
  induction ls with
  | nil => intro dd cc; left; rfl
  | cons l rest ih =>
    intro dd cc
    rw [Evaluation._lumLoop]
    by_cases hd : |lv - l| < dd
    · rw [if_pos hd]
      rcases ih (|lv - l|) l with h | h
      · right
        rw [h]
        exact List.mem_cons_self l rest
      · right
        exact List.mem_cons_of_mem _ h
    · rw [if_neg hd]
      rcases ih dd cc with h | h
      · left
        exact h
      · right
        exact List.mem_cons_of_mem _ h

lemma cellLoop_mem (sx sy : ℝ) (t : List Char) (is : List ℕ) : ∀ (dd : ℝ) (cc : Char),
    (Evaluation._cellLoop sx sy t is (dd, cc)).2 = cc ∨
      ((Evaluation._cellLoop sx sy t is (dd, cc)).2 ∈ t ∧
       (Evaluation._cellLoop sx sy t is (dd, cc)).2 ≠ '.') := by
  induction is with
  | nil => intro dd cc; left; rfl
  | cons i rest ih =>
    intro dd cc
    rw [Evaluation._cellLoop]
    cases hg : t.get? i with
    | none =>
      simp only [hg]
      exact ih dd cc
    | some ch =>
      simp only [hg]
      by_cases hdot : ch = '.'
      · rw [if_pos hdot]
        exact ih dd cc
      · rw [if_neg hdot]
        by_cases hlt : Real.sqrt ((sx - (((i % 18 : ℕ) : ℝ) * 25 + 150)) * (sx - (((i % 18 : ℕ) : ℝ) * 25 + 150)) + (sy - (((i / 18 : ℕ) : ℝ) * 25 + 75)) * (sy - (((i / 18 : ℕ) : ℝ) * 25 + 75))) < dd
        · rw [if_pos hlt]
          rcases ih _ ch with h | h
          · right
            rw [h]
            exact ⟨List.get?_mem hg, hdot⟩
          · right
            exact h
        · rw [if_neg hlt]
          rcases ih dd cc with h | h
          · left
            exact h
          · right
            exact h

lemma decode_ok (c : Char) (hc : c = 'a' ∨ (c.isDigit = true ∧ c.toNat - 48 < 11)) :
    ∃ s, s ∈ Evaluation.CATEGORICAL_COLORS ∧
      ((if c = 'a' then some 10
        else if c.isDigit then some (c.toNat - 48)
        else Option.none).bind fun i => Evaluation.CATEGORICAL_COLORS.get? i) = some s := by
  rcases hc with h | ⟨hdig, hlt⟩
  · refine ⟨"gray", by decide, ?_⟩
    rw [h]
    rfl
  · have hne : c ≠ 'a' := by
      intro he
      rw [he] at hdig
      exact absurd hdig (by decide)
    have hlen : Evaluation.CATEGORICAL_COLORS.length = 11 := rfl
    have hget := List.get?_eq_get (l := Evaluation.CATEGORICAL_COLORS)
      (n := c.toNat - 48) (by rw [hlen]; exact hlt)
    refine ⟨_, List.get?_mem hget, ?_⟩
    rw [if_neg hne, if_pos hdig]
    rw [Option.some_bind]
    exact hget

set_option maxRecDepth 40000 in
lemma alpha_2 : ∀ c ∈ Evaluation._CC_STR_2.data, c = '.' ∨ c = 'a' ∨ (c.isDigit = true ∧ c.toNat - 48 < 11) := by decide

set_option maxRecDepth 40000 in
lemma alpha_5 : ∀ c ∈ Evaluation._CC_STR_5.data, c = '.' ∨ c = 'a' ∨ (c.isDigit = true ∧ c.toNat - 48 < 11) := by decide

set_option maxRecDepth 40000 in
lemma alpha_10 : ∀ c ∈ Evaluation._CC_STR_10.data, c = '.' ∨ c = 'a' ∨ (c.isDigit = true ∧ c.toNat - 48 < 11) := by decide

set_option maxRecDepth 40000 in
lemma alpha_20 : ∀ c ∈ Evaluation._CC_STR_20.data, c = '.' ∨ c = 'a' ∨ (c.isDigit = true ∧ c.toNat - 48 < 11) := by decide

set_option maxRecDepth 40000 in
lemma alpha_30 : ∀ c ∈ Evaluation._CC_STR_30.data, c = '.' ∨ c = 'a' ∨ (c.isDigit = true ∧ c.toNat - 48 < 11) := by decide

set_option maxRecDepth 40000 in
lemma alpha_40 : ∀ c ∈ Evaluation._CC_STR_40.data, c = '.' ∨ c = 'a' ∨ (c.isDigit = true ∧ c.toNat - 48 < 11) := by decide

lemma category_of_table (tbl : String)
    (halpha : ∀ c ∈ tbl.data, c = '.' ∨ c = 'a' ∨ (c.isDigit = true ∧ c.toNat - 48 < 11))
    (sx sy : ℝ) :
    ∃ s, s ∈ Evaluation.CATEGORICAL_COLORS ∧
      ((if (Evaluation._cellLoop sx sy tbl.data (List.range (18 * 21)) (NUMBER_MAX_VALUE, '1')).2 = 'a'
        then some 10
        else if (Evaluation._cellLoop sx sy tbl.data (List.range (18 * 21)) (NUMBER_MAX_VALUE, '1')).2.isDigit
        then some ((Evaluation._cellLoop sx sy tbl.data (List.range (18 * 21)) (NUMBER_MAX_VALUE, '1')).2.toNat - 48)
        else Option.none).bind fun i => Evaluation.CATEGORICAL_COLORS.get? i) = some s := by
  apply decode_ok
  rcases cellLoop_mem sx sy tbl.data (List.range (18 * 21)) NUMBER_MAX_VALUE '1' with h | ⟨hmem, hdot⟩
  · rw [h]
    right
    exact ⟨by decide, by decide⟩
  · rcases halpha _ hmem with h | h | h
    · exact absurd h hdot
    · left
      exact h
    · right
      exact h

/-- C9 (amended): for every Yxy triple whose luminance component is
nonnegative and small enough that the compressed luminance stays below
Number.MAX_VALUE - 2 (so a nearest luminance bucket is actually selected),
categoryOfYxy returns one of the 11 categorical color names; for negative
luminance the power is NaN and the classifier throws instead, as the
counterexample shows. -/
theorem claim_C9 : ∀ y sx sy : ℝ, 0 ≤ y →
    (y * 60) ^ (0.9 : ℝ) < NUMBER_MAX_VALUE - 2 →
    ∃ s, s ∈ Evaluation.CATEGORICAL_COLORS ∧
      Evaluation.categoryOfYxy (y, sx, sy) = some s := by
  intro y sx sy hy hbound
  have hlum : Evaluation._lum y = some ((y * 60) ^ (0.9 : ℝ)) := by
    rw [Evaluation._lum, Evaluation._Y_TO_LUM, if_neg]
    push_neg
    positivity
  have hL0 : 0 ≤ (y * 60) ^ (0.9 : ℝ) := Real.rpow_nonneg (by positivity) _
  have hstep : Evaluation._lumLoop (some ((y * 60) ^ (0.9 : ℝ))) Evaluation._LUM_TABLE
      (NUMBER_MAX_VALUE, 0) =
      Evaluation._lumLoop (some ((y * 60) ^ (0.9 : ℝ))) [5, 10, 20, 30, 40]
        (|(y * 60) ^ (0.9 : ℝ) - 2|, 2) := by
    rw [Evaluation._LUM_TABLE, Evaluation._lumLoop, if_pos]
    rw [abs_sub_lt_iff]
    constructor
    · linarith
    · have : (2:ℝ) < NUMBER_MAX_VALUE := by norm_num [NUMBER_MAX_VALUE]
      linarith
  have hclum := lumLoop_mem ((y * 60) ^ (0.9 : ℝ)) [5, 10, 20, 30, 40]
    (|(y * 60) ^ (0.9 : ℝ) - 2|) 2
  rw [← hstep] at hclum
  set clum := (Evaluation._lumLoop (some ((y * 60) ^ (0.9 : ℝ))) Evaluation._LUM_TABLE
      (NUMBER_MAX_VALUE, 0)).2 with hclumdef
  have hcases : clum = 2 ∨ clum = 5 ∨ clum = 10 ∨ clum = 20 ∨ clum = 30 ∨ clum = 40 := by
    rcases hclum with h | h
    · exact Or.inl h
    · simp only [List.mem_cons, List.not_mem_nil, or_false] at h
      tauto
  have hmain : ∀ tbl : String,
      Evaluation._CC_TABLE clum = some tbl →
      (∀ c ∈ tbl.data, c = '.' ∨ c = 'a' ∨ (c.isDigit = true ∧ c.toNat - 48 < 11)) →
      ∃ s, s ∈ Evaluation.CATEGORICAL_COLORS ∧
        Evaluation.categoryOfYxy (y, sx, sy) = some s := by
    intro tbl htab halpha
    obtain ⟨s, hs1, hs2⟩ := category_of_table tbl halpha (sx * 1000) (sy * 1000)
    refine ⟨s, hs1, ?_⟩
    simp only [Evaluation.categoryOfYxy, hlum]
    rw [← hclumdef, htab]
    exact hs2
  rcases hcases with h | h | h | h | h | h
  · exact hmain _ (by rw [h]; norm_num [Evaluation._CC_TABLE]) alpha_2
  · exact hmain _ (by rw [h]; norm_num [Evaluation._CC_TABLE]) alpha_5
  · exact hmain _ (by rw [h]; norm_num [Evaluation._CC_TABLE]) alpha_10
  · exact hmain _ (by rw [h]; norm_num [Evaluation._CC_TABLE]) alpha_20
  · exact hmain _ (by rw [h]; norm_num [Evaluation._CC_TABLE]) alpha_30
  · exact hmain _ (by rw [h]; norm_num [Evaluation._CC_TABLE]) alpha_40

/-- witness for claim_C9 at (0.2, 0.31, 0.33). -/
theorem claim_C9_witness :
    (0:ℝ) ≤ 0.2 ∧ ((0.2:ℝ) * 60) ^ (0.9 : ℝ) < NUMBER_MAX_VALUE - 2 ∧
      ∃ s, s ∈ Evaluation.CATEGORICAL_COLORS ∧
        Evaluation.categoryOfYxy (0.2, 0.31, 0.33) = some s := by
  have hb : ((0.2:ℝ) * 60) ^ (0.9 : ℝ) < NUMBER_MAX_VALUE - 2 := by
    have h1 : ((0.2:ℝ) * 60) ^ (0.9 : ℝ) ≤ ((0.2:ℝ) * 60) ^ (1 : ℝ) :=
      Real.rpow_le_rpow_of_exponent_le (by norm_num) (by norm_num)
    rw [Real.rpow_one] at h1
    have h2 : (12:ℝ) < NUMBER_MAX_VALUE - 2 := by norm_num [NUMBER_MAX_VALUE]
    linarith
  exact ⟨by norm_num, hb, claim_C9 0.2 0.31 0.33 (by norm_num) hb⟩

/-! ### The dispatcher (convert) -/

/-- JS String.prototype.toLowerCase on the identifiers used here. -/
def jsToLower (s : String) : String := String.mk (s.data.map Char.toLower)

namespace LRGB

/-- LRGB.fromYIQ = YIQ.toLRGB. -/
def fromYIQ (yiq : Vec3) : Vec3 := YIQ.toLRGB yiq

end LRGB

namespace XYZ

/-- XYZ.fromLRGB = LRGB.toXYZ. -/
def fromLRGB (lrgb : Vec3) : Vec3 := LRGB.toXYZ lrgb

/-- XYZ.fromYxy = Yxy.toXYZ (the value; the flag is a side effect). -/
def fromYxy (yxy : Vec3) : Vec3 := (Yxy.toXYZ yxy).1

/-- XYZ.fromLab = Lab.toXYZ. -/
def fromLab (lab : Vec3) : Vec3 := Lab.toXYZ lab

/-- XYZ.fromLMS = LMS.toXYZ. -/
def fromLMS (lms : Vec3) : Vec3 := LMS.toXYZ lms

/-- XYZ.fromMunsell = Munsell.toXYZ (the value; the flag is a side effect). -/
def fromMunsell (hvc : Vec3) : Option Vec3 := (Munsell.toXYZ hvc).map Prod.fst

end XYZ

namespace Munsell

/-- Munsell.fromPCCS = PCCS.toMunsell under the selected method. -/
def fromPCCS (hls : Vec3) : Option Vec3 := PCCS.toMunsell PCCS.conversionMethod hls

end Munsell

/-- convert: the string-keyed dispatcher. The source builds the lowercase
"from-to" key and switches over the 72 recognized conversion chains; any
other key falls through to returning the input unchanged. -/
def convert (fuel : ℕ) (vs : Vec3) (f : String) (t : String := "rgb") : Option Vec3 :=
  match jsToLower f ++ "-" ++ jsToLower t with
  | "yiq-rgb" => some ((RGB.fromLRGB (LRGB.fromYIQ vs)).1)
  | "lrgb-rgb" => some ((RGB.fromLRGB vs).1)
  | "xyz-rgb" => some ((RGB.fromLRGB (LRGB.fromXYZ vs)).1)
  | "yxy-rgb" => some ((RGB.fromLRGB (LRGB.fromXYZ (XYZ.fromYxy vs))).1)
  | "lab-rgb" => some ((RGB.fromLRGB (LRGB.fromXYZ (XYZ.fromLab vs))).1)
  | "lms-rgb" => some ((RGB.fromLRGB (LRGB.fromXYZ (XYZ.fromLMS vs))).1)
  | "munsell-rgb" => ((XYZ.fromMunsell vs).map (fun w => LRGB.fromXYZ w)).map (fun w => (RGB.fromLRGB w).1)
  | "pccs-rgb" => (((Munsell.fromPCCS vs).bind (fun w => XYZ.fromMunsell w)).map (fun w => LRGB.fromXYZ w)).map (fun w => (RGB.fromLRGB w).1)
  | "rgb-lrgb" => some (LRGB.fromRGB vs)
  | "yiq-lrgb" => some (LRGB.fromYIQ vs)
  | "xyz-lrgb" => some (LRGB.fromXYZ vs)
  | "yxy-lrgb" => some (LRGB.fromXYZ (XYZ.fromYxy vs))
  | "lab-lrgb" => some (LRGB.fromXYZ (XYZ.fromLab vs))
  | "lms-lrgb" => some (LRGB.fromXYZ (XYZ.fromLMS vs))
  | "munsell-lrgb" => (XYZ.fromMunsell vs).map (fun w => LRGB.fromXYZ w)
  | "pccs-lrgb" => ((Munsell.fromPCCS vs).bind (fun w => XYZ.fromMunsell w)).map (fun w => LRGB.fromXYZ w)
  | "rgb-yiq" => some (YIQ.fromLRGB (LRGB.fromRGB vs))
  | "lrgb-yiq" => some (YIQ.fromLRGB vs)
  | "xyz-yiq" => some (YIQ.fromLRGB (LRGB.fromXYZ vs))
  | "yxy-yiq" => some (YIQ.fromLRGB (LRGB.fromXYZ (XYZ.fromYxy vs)))
  | "lab-yiq" => some (YIQ.fromLRGB (LRGB.fromXYZ (XYZ.fromLab vs)))
  | "lms-yiq" => some (YIQ.fromLRGB (LRGB.fromXYZ (XYZ.fromLMS vs)))
  | "munsell-yiq" => ((XYZ.fromMunsell vs).map (fun w => LRGB.fromXYZ w)).map (fun w => YIQ.fromLRGB w)
  | "pccs-yiq" => (((Munsell.fromPCCS vs).bind (fun w => XYZ.fromMunsell w)).map (fun w => LRGB.fromXYZ w)).map (fun w => YIQ.fromLRGB w)
  | "rgb-xyz" => some (XYZ.fromLRGB (LRGB.fromRGB vs))
  | "yiq-xyz" => some (XYZ.fromLRGB (LRGB.fromYIQ vs))
  | "lrgb-xyz" => some (XYZ.fromLRGB vs)
  | "yxy-xyz" => some (XYZ.fromYxy vs)
  | "lab-xyz" => some (XYZ.fromLab vs)
  | "lms-xyz" => some (XYZ.fromLMS vs)
  | "munsell-xyz" => XYZ.fromMunsell vs
  | "pccs-xyz" => (Munsell.fromPCCS vs).bind (fun w => XYZ.fromMunsell w)
  | "rgb-yxy" => some (Yxy.fromXYZ (XYZ.fromLRGB (LRGB.fromRGB vs)))
  | "yiq-yxy" => some (Yxy.fromXYZ (XYZ.fromLRGB (LRGB.fromYIQ vs)))
  | "lrgb-yxy" => some (Yxy.fromXYZ (XYZ.fromLRGB vs))
  | "xyz-yxy" => some (Yxy.fromXYZ vs)
  | "lab-yxy" => some (Yxy.fromXYZ (XYZ.fromLab vs))
  | "lms-yxy" => some (Yxy.fromXYZ (XYZ.fromLMS vs))
  | "munsell-yxy" => (XYZ.fromMunsell vs).map (fun w => Yxy.fromXYZ w)
  | "pccs-yxy" => ((Munsell.fromPCCS vs).bind (fun w => XYZ.fromMunsell w)).map (fun w => Yxy.fromXYZ w)
  | "rgb-lab" => some (Lab.fromXYZ (XYZ.fromLRGB (LRGB.fromRGB vs)))
  | "yiq-lab" => some (Lab.fromXYZ (XYZ.fromLRGB (LRGB.fromYIQ vs)))
  | "lrgb-lab" => some (Lab.fromXYZ (XYZ.fromLRGB vs))
  | "xyz-lab" => some (Lab.fromXYZ vs)
  | "yxy-lab" => some (Lab.fromXYZ (XYZ.fromYxy vs))
  | "lms-lab" => some (Lab.fromXYZ (XYZ.fromLMS vs))
  | "munsell-lab" => (XYZ.fromMunsell vs).map (fun w => Lab.fromXYZ w)
  | "pccs-lab" => ((Munsell.fromPCCS vs).bind (fun w => XYZ.fromMunsell w)).map (fun w => Lab.fromXYZ w)
  | "rgb-lms" => some (LMS.fromXYZ (XYZ.fromLRGB (LRGB.fromRGB vs)))
  | "yiq-lms" => some (LMS.fromXYZ (XYZ.fromLRGB (LRGB.fromYIQ vs)))
  | "lrgb-lms" => some (LMS.fromXYZ (XYZ.fromLRGB vs))
  | "xyz-lms" => some (LMS.fromXYZ vs)
  | "yxy-lms" => some (LMS.fromXYZ (XYZ.fromYxy vs))
  | "lab-lms" => some (LMS.fromXYZ (XYZ.fromLab vs))
  | "munsell-lms" => (XYZ.fromMunsell vs).map (fun w => LMS.fromXYZ w)
  | "pccs-lms" => ((Munsell.fromPCCS vs).bind (fun w => XYZ.fromMunsell w)).map (fun w => LMS.fromXYZ w)
  | "rgb-munsell" => some (Munsell.fromXYZ fuel (XYZ.fromLRGB (LRGB.fromRGB vs)))
  | "yiq-munsell" => some (Munsell.fromXYZ fuel (XYZ.fromLRGB (LRGB.fromYIQ vs)))
  | "lrgb-munsell" => some (Munsell.fromXYZ fuel (XYZ.fromLRGB vs))
  | "xyz-munsell" => some (Munsell.fromXYZ fuel vs)
  | "yxy-munsell" => some (Munsell.fromXYZ fuel (XYZ.fromYxy vs))
  | "lab-munsell" => some (Munsell.fromXYZ fuel (XYZ.fromLab vs))
  | "lms-munsell" => some (Munsell.fromXYZ fuel (XYZ.fromLMS vs))
  | "pccs-munsell" => Munsell.fromPCCS vs
  | "rgb-pccs" => PCCS.fromMunsell fuel PCCS.conversionMethod (Munsell.fromXYZ fuel (XYZ.fromLRGB (LRGB.fromRGB vs)))
  | "yiq-pccs" => PCCS.fromMunsell fuel PCCS.conversionMethod (Munsell.fromXYZ fuel (XYZ.fromLRGB (LRGB.fromYIQ vs)))
  | "lrgb-pccs" => PCCS.fromMunsell fuel PCCS.conversionMethod (Munsell.fromXYZ fuel (XYZ.fromLRGB vs))
  | "xyz-pccs" => PCCS.fromMunsell fuel PCCS.conversionMethod (Munsell.fromXYZ fuel vs)
  | "yxy-pccs" => PCCS.fromMunsell fuel PCCS.conversionMethod (Munsell.fromXYZ fuel (XYZ.fromYxy vs))
  | "lab-pccs" => PCCS.fromMunsell fuel PCCS.conversionMethod (Munsell.fromXYZ fuel (XYZ.fromLab vs))
  | "lms-pccs" => PCCS.fromMunsell fuel PCCS.conversionMethod (Munsell.fromXYZ fuel (XYZ.fromLMS vs))
  | "munsell-pccs" => PCCS.fromMunsell fuel PCCS.conversionMethod vs
  | _ => some vs

/-- The 72 recognized conversion keys of convert, in source order. -/
def recognizedTypes : List String :=
  ["yiq-rgb", "lrgb-rgb", "xyz-rgb", "yxy-rgb", "lab-rgb", "lms-rgb",
   "munsell-rgb", "pccs-rgb", "rgb-lrgb", "yiq-lrgb", "xyz-lrgb", "yxy-lrgb",
   "lab-lrgb", "lms-lrgb", "munsell-lrgb", "pccs-lrgb", "rgb-yiq", "lrgb-yiq",
   "xyz-yiq", "yxy-yiq", "lab-yiq", "lms-yiq", "munsell-yiq", "pccs-yiq",
   "rgb-xyz", "yiq-xyz", "lrgb-xyz", "yxy-xyz", "lab-xyz", "lms-xyz",
   "munsell-xyz", "pccs-xyz", "rgb-yxy", "yiq-yxy", "lrgb-yxy", "xyz-yxy",
   "lab-yxy", "lms-yxy", "munsell-yxy", "pccs-yxy", "rgb-lab", "yiq-lab",
   "lrgb-lab", "xyz-lab", "yxy-lab", "lms-lab", "munsell-lab", "pccs-lab",
   "rgb-lms", "yiq-lms", "lrgb-lms", "xyz-lms", "yxy-lms", "lab-lms",
   "munsell-lms", "pccs-lms", "rgb-munsell", "yiq-munsell", "lrgb-munsell", "xyz-munsell",
   "yxy-munsell", "lab-munsell", "lms-munsell", "pccs-munsell", "rgb-pccs", "yiq-pccs",
   "lrgb-pccs", "xyz-pccs", "yxy-pccs", "lab-pccs", "lms-pccs", "munsell-pccs"]

/-! ### Claim C2: the identity fallback of convert -/

set_option maxHeartbeats 4000000 in
/-- C2: for every 3-element value and every pair of space-name strings whose
lowercased "from-to" key is not one of the 72 recognized conversion pairs,
convert returns the input unchanged, raising no error, whatever the loop
fuel. -/
theorem claim_C2 : ∀ (fuel : ℕ) (vs : Vec3) (f t : String),
    (jsToLower f ++ "-" ++ jsToLower t) ∉ recognizedTypes →
    convert fuel vs f t = some vs := by
  intro fuel vs f t h
  simp only [convert]
  split
  all_goals try rfl
  all_goals simp_all [recognizedTypes]

/-- witness for claim_C2 at the unrecognized pair (XYZ, foo). -/
theorem claim_C2_witness :
    (jsToLower "XYZ" ++ "-" ++ jsToLower "foo") ∉ recognizedTypes ∧
      convert 0 (1, 2, 3) "XYZ" "foo" = some (1, 2, 3) :=
  ⟨by decide, claim_C2 0 (1, 2, 3) "XYZ" "foo" (by decide)⟩
